import Mathlib

/-!
Shallow embedding of the background coordinator of the ChromeVolumeControl
browser extension (the `background` script): volume-record validation, the
two in-memory volume mappings and their storage write-through, the
per-tab retry queues with their periodic sweep, and the `onMessage`
request router.  JavaScript numbers are modelled as `ℚ` (the source only
compares and stores them; `NaN` is a separate constructor), JavaScript
values reaching validators as the inductive `JSVal`, and the callback
based Chrome APIs as explicit environment parameters.  Message sending is
modelled by returning the attempted commands and by explicit queue
transition functions; console logging is not modelled.
-/

namespace VolumeControl

/-- A JavaScript value as it can reach the validators of the background
script: `nan` is the number `NaN` (for which `isNaN` is true while
`typeof` is `"number"`). -/
inductive JSVal where
  | undefined
  | null
  | num (q : ℚ)
  | nan
  | boolean (b : Bool)
  | str (s : String)
deriving DecidableEq

/-- JavaScript truthiness of a `JSVal` (`undefined`, `null`, `0`, `NaN`,
`false` and the empty string are falsy). -/
def JSVal.truthy : JSVal → Bool
  | .undefined => false
  | .null => false
  | .num q => q != 0
  | .nan => false
  | .boolean b => b
  | .str s => s != ""

/-- Numeric payload of a `JSVal`; only meaningful where the source has
already checked `typeof v === "number" && !isNaN(v)`. -/
def JSVal.toNum : JSVal → ℚ
  | .num q => q
  | _ => 0

/-- Boolean payload of a `JSVal`; only meaningful where the source has
already checked `typeof v === "boolean"`. -/
def JSVal.toBool : JSVal → Bool
  | .boolean b => b
  | _ => false

/-- `isValidVolume` from the background script: the value is a number,
not `NaN`, and between 0 and 100. -/
def isValidVolume : JSVal → Bool
  | .num q => decide (0 ≤ q ∧ q ≤ 100)
  | _ => false

/-- `isValidTabId` from the background script: the value is a number,
not `NaN`, and strictly positive. -/
def isValidTabId : JSVal → Bool
  | .num q => decide (0 < q)
  | _ => false

/-- `TabVolumeData` from the background script.  Optional fields are
`Option`s. -/
structure TabVolumeData where
  volume : ℚ
  previousVolume : ℚ
  muted : Bool
  hasAudio : Bool
  isPlaying : Option Bool
  tabUrl : Option String
deriving DecidableEq

/-- `getDefaultVolumeData` from the background script. -/
def getDefaultVolumeData : TabVolumeData :=
  { volume := 100
    previousVolume := 100
    muted := false
    hasAudio := true
    isPlaying := none
    tabUrl := none }

/-- A raw value read back from `chrome.storage.local`, as consumed by
`validateVolumeData`: either not a (truthy) object at all, or an object
of which only the six fields the function reads are relevant. -/
inductive RawData where
  | notObj
  | obj (volume previousVolume muted hasAudio isPlaying tabUrl : JSVal)
deriving DecidableEq

/-- `validateVolumeData` from the background script: non-objects become
the default record; each field is individually kept when valid and
replaced by its default (or dropped, for the optional fields) when
not. -/
def validateVolumeData : RawData → TabVolumeData
  | .notObj => getDefaultVolumeData
  | .obj volume previousVolume muted hasAudio isPlaying tabUrl =>
    { volume := if isValidVolume volume then volume.toNum else getDefaultVolumeData.volume
      previousVolume :=
        if isValidVolume previousVolume then previousVolume.toNum
        else getDefaultVolumeData.previousVolume
      muted := match muted with
        | .boolean b => b
        | _ => getDefaultVolumeData.muted
      hasAudio := match hasAudio with
        | .boolean b => b
        | _ => getDefaultVolumeData.hasAudio
      isPlaying := match isPlaying with
        | .boolean b => some b
        | _ => none
      tabUrl := match tabUrl with
        | .str s => some s
        | _ => none }

/-- A command sent from the coordinator to a tab's content script, as
built by `applyVolumeToTab` (always carrying all three data fields). -/
structure Command where
  action : String
  volume : ℚ
  muted : Bool
  previousVolume : ℚ
deriving DecidableEq

/-- An entry of a per-tab retry queue, as pushed by `sendMessageToTab`. -/
structure QueueEntry where
  message : Command
  retryCount : ℕ
  time : ℤ
deriving DecidableEq

/-- `MAX_RETRIES` from the background script. -/
def MAX_RETRIES : ℕ := 3

/-- `MAX_QUEUE_SIZE` from the background script. -/
def MAX_QUEUE_SIZE : ℕ := 50

/-- The `messageQueues` map: per tab id, `none` when the map has no entry
for that tab. -/
def Queues : Type := ℚ → Option (List QueueEntry)

/-- Point update of a `Queues` map (`messageQueues.set` /
`messageQueues.delete`). -/
def updateQ (qs : Queues) (tabId : ℚ) (v : Option (List QueueEntry)) : Queues :=
  fun t => if t = tabId then v else qs t

/-- `sendMessageToTab` from the background script.  The Chrome send
callback is modelled by the `deliverOk` parameter; on delivery failure
the message is queued (creating the queue when absent, dropping the new
entry when the queue is full).  The returned `Bool` is whether
`chrome.tabs.sendMessage` was invoked at all (the function returns early
on an invalid tab id, an invalid message, or an exhausted retry
budget). -/
def sendMessageToTab (qs : Queues) (tabId : ℚ) (message : Command) (retryCount : ℕ)
    (now : ℤ) (deliverOk : Bool) : Queues × Bool :=
  if ¬ 0 < tabId then (qs, false)
  else if message.action = "" then (qs, false)
  else if MAX_RETRIES ≤ retryCount then (qs, false)
  else if deliverOk then (qs, true)
  else
    let queue := (qs tabId).getD []
    let queue' :=
      if queue.length < MAX_QUEUE_SIZE then queue ++ [⟨message, retryCount + 1, now⟩]
      else queue
    (updateQ qs tabId (some queue'), true)

/-- Accumulator of the sweep over one queue in `processMessageQueue`:
the evolving queue map, the commands for which a send was attempted, and
the index into the delivery-outcome oracle. -/
structure SweepAcc where
  queues : Queues
  sent : List Command
  k : ℕ

/-- One iteration of the `messagesToProcess.forEach` loop of
`processMessageQueue`: invalid entries are dropped, entries aged in
[1000, 60000) milliseconds are re-sent through `sendMessageToTab`,
entries younger than 1000 ms are put back (if there is space), and older
entries are discarded. -/
def sweepStep (tabId : ℚ) (now : ℤ) (ok : ℕ → Bool) (acc : SweepAcc)
    (item : QueueEntry) : SweepAcc :=
  if item.message.action = "" then acc
  else if 1000 ≤ now - item.time ∧ now - item.time < 60000 then
    let r := sendMessageToTab acc.queues tabId item.message item.retryCount now (ok acc.k)
    ⟨r.1, acc.sent ++ (if r.2 then [item.message] else []), acc.k + 1⟩
  else if now - item.time < 1000 then
    let cur := (acc.queues tabId).getD []
    ⟨updateQ acc.queues tabId
        (some (if cur.length < MAX_QUEUE_SIZE then cur ++ [item] else cur)),
      acc.sent, acc.k⟩
  else acc

/-- `processMessageQueue` from the background script: the queue of the
tab is snapshotted (first `MAX_QUEUE_SIZE` entries), reset to empty, and
each snapshotted entry handled by `sweepStep`.  Returns the new queue
map and the commands for which a send was attempted.  `ok` gives the
delivery outcome of each attempted send (the source receives these
through asynchronous callbacks; here the resulting re-enqueues are
applied at the send site). -/
def processMessageQueue (qs : Queues) (tabId : ℚ) (now : ℤ) (ok : ℕ → Bool) :
    Queues × List Command :=
  if ¬ 0 < tabId then (qs, [])
  else
    match qs tabId with
    | none => (qs, [])
    | some queue =>
      if queue.length = 0 then (qs, [])
      else
        let messagesToProcess := queue.take MAX_QUEUE_SIZE
        let fin := messagesToProcess.foldl (sweepStep tabId now ok)
          ⟨updateQ qs tabId (some []), [], 0⟩
        (fin.queues, fin.sent)

/-- The module-level mutable state of the background script: the two
volume mappings, the audible-tab set, the two key families of
`chrome.storage.local` (`tab-volume-<id>` and `url-volume-<url>`), and
the retry queues. -/
structure SysState where
  tabVolumeSettings : ℚ → Option TabVolumeData
  urlVolumeSettings : String → Option TabVolumeData
  audibleTabs : ℚ → Bool
  tabStore : ℚ → Option TabVolumeData
  urlStore : String → Option TabVolumeData
  messageQueues : Queues

/-- `saveTabVolume` from the background script.  When a truthy URL is
given the source first mutates `volumeData.tabUrl = tabUrl` in place and
then writes the object under the URL key and into `urlVolumeSettings`;
the mutated record is therefore also returned, so that callers (which
have just stored the same object in `tabVolumeSettings`) can account for
the aliasing.  The tab-scoped storage write captures the record as it is
at the call (before the `tabUrl` mutation). -/
def saveTabVolume (st : SysState) (tabId : ℚ) (volumeData : TabVolumeData)
    (tabUrl : Option String) : SysState × TabVolumeData :=
  if ¬ 0 < tabId then (st, volumeData)
  else
    let st1 := { st with tabStore := fun t => if t = tabId then some volumeData else st.tabStore t }
    match tabUrl with
    | some url =>
      if url = "" then (st1, volumeData)
      else
        let volumeData' := { volumeData with tabUrl := some url }
        ({ st1 with
            urlStore := fun u => if u = url then some volumeData' else st1.urlStore u
            urlVolumeSettings := fun u =>
              if u = url then some volumeData' else st1.urlVolumeSettings u },
          volumeData')
    | none => (st1, volumeData)

/-- The `tabVolumeSettings.set(tabId, data); saveTabVolume(tabId, data,
url)` pattern used at every cache write site; the tab mapping receives
the record as mutated by `saveTabVolume` (shared object). -/
def setAndSave (st : SysState) (tabId : ℚ) (volumeData : TabVolumeData)
    (tabUrl : Option String) : SysState × TabVolumeData :=
  let r := saveTabVolume st tabId volumeData tabUrl
  ({ r.1 with tabVolumeSettings := fun t =>
      if t = tabId then some r.2 else r.1.tabVolumeSettings t },
    r.2)

/-- `getVolumeDataForTab` from the background script: tab mapping first,
then (for a truthy URL) the URL mapping — which back-fills the tab
mapping and persists it via `saveTabVolume` — else the default
record. -/
def getVolumeDataForTab (st : SysState) (tabId : ℚ) (tabUrl : Option String) :
    TabVolumeData × SysState :=
  if ¬ 0 < tabId then (getDefaultVolumeData, st)
  else
    match st.tabVolumeSettings tabId with
    | some data => (data, st)
    | none =>
      match tabUrl with
      | some url =>
        if url = "" then (getDefaultVolumeData, st)
        else
          match st.urlVolumeSettings url with
          | some data =>
            let r := setAndSave st tabId data (some url)
            (r.2, r.1)
          | none => (getDefaultVolumeData, st)
      | none => (getDefaultVolumeData, st)

/-- `applyVolumeToTab` from the background script, up to the message it
hands to `sendMessageToTab`: `none` when the tab id is invalid and no
message is sent; otherwise the command, whose action is `toggleMute`
exactly when the record is muted and which always carries `volume`,
`muted` and `previousVolume`. -/
def applyVolumeToTab (tabId : ℚ) (volumeData : TabVolumeData) : Option Command :=
  if 0 < tabId then
    some { action := if volumeData.muted then "toggleMute" else "setVolume"
           volume := volumeData.volume
           muted := volumeData.muted
           previousVolume := volumeData.previousVolume }
  else none

/-- An inbound `onMessage` payload: whether it is a truthy object, plus
the fields the router reads (absent fields are `undefined`). -/
structure RawMessage where
  isObj : Bool
  action : JSVal
  tabId : JSVal
  volume : JSVal
  muted : JSVal
  previousVolume : JSVal
  hasAudio : JSVal
deriving DecidableEq

/-- The `sender.tab` object (id and url may be absent). -/
structure SenderTab where
  id : Option ℚ
  url : Option String
deriving DecidableEq

/-- The `sender` of an inbound message. -/
structure Sender where
  id : Option String
  tab : Option SenderTab
deriving DecidableEq

/-- The truthiness test `sender.tab?.id` used by the routed branches:
the tab object exists and its id is present and nonzero. -/
def senderTabId (sender : Sender) : Option ℚ :=
  match sender.tab with
  | some t =>
    match t.id with
    | some q => if q ≠ 0 then some q else none
    | none => none
  | none => none

/-- A tab object as produced by `chrome.tabs.query` / `chrome.tabs.get`. -/
structure ChromeTab where
  id : Option ℚ
  url : Option String
  audible : Bool
deriving DecidableEq

/-- The response sent through `sendResponse` (the `getAudibleTabs`
payload is not inspected by any claim and is elided). -/
inductive Response where
  | ok
  | err (error : String)
  | audioStatus (volume : ℚ) (muted : Bool) (previousVolume : ℚ)
  | tabsList
deriving DecidableEq

/-- Environment of one `onMessage` dispatch: the outcome of
`chrome.tabs.get` (for `updateTabVolume`), the `chrome.tabs.query`
result (for `getAudibleTabs`), the current time, the delivery outcome of
the synchronous `applyVolumeToTab` send, and the delivery outcomes of
the sends attempted by a queue flush. -/
structure Env where
  tabGet : Except String ChromeTab
  queryTabs : List ChromeTab
  now : ℤ
  deliver : Bool
  ok : ℕ → Bool

/-- Result of one `onMessage` dispatch: the new state, the responses
sent through `sendResponse`, and the commands handed to
`sendMessageToTab` (with their destination tab). -/
structure HandlerResult where
  state : SysState
  responses : List Response
  sends : List (ℚ × Command)

/-- Fall-through of the router when no branch matched. -/
def unknownActionResult (st : SysState) : HandlerResult :=
  ⟨st, [.err "Unknown action"], []⟩

/-- The `contentScriptReady` branch: validates the sender tab id and
flushes that tab's queue immediately. -/
def handleContentScriptReady (st : SysState) (tabId : ℚ) (env : Env) : HandlerResult :=
  if ¬ 0 < tabId then ⟨st, [.err "Invalid tabId"], []⟩
  else
    let r := processMessageQueue st.messageQueues tabId env.now env.ok
    ⟨{ st with messageQueues := r.1 }, [.ok], r.2.map (fun c => (tabId, c))⟩

/-- The relevance filter of the `getAudibleTabs` branch, evaluated
against the state at dispatch time. -/
def relevantTab (st : SysState) (tab : ChromeTab) : Bool :=
  match tab.id with
  | some tid =>
    tid != 0 && decide (0 < tid) &&
      (st.audibleTabs tid ||
        (match st.tabVolumeSettings tid with
          | some d => d.hasAudio
          | none => false) ||
        (match tab.url with
          | some u => u != "" && (st.urlVolumeSettings u).isSome
          | none => false))
  | none => false

/-- One step of the `relevantTabs.map` loop of the `getAudibleTabs`
branch: the state effect of attaching `getVolumeDataForTab` to one
tab. -/
def gatStep (s : SysState) (tab : ChromeTab) : SysState :=
  match tab.id with
  | some tid => (getVolumeDataForTab s tid tab.url).2
  | none => s

/-- The `getAudibleTabs` branch: filters the queried tabs, then attaches
`getVolumeDataForTab` to each (which can back-fill the tab mapping from
the URL mapping as a side effect). -/
def handleGetAudibleTabs (st : SysState) (env : Env) : HandlerResult :=
  let relevant := env.queryTabs.filter (relevantTab st)
  ⟨relevant.foldl gatStep st, [.tabsList], []⟩

/-- The `newVolumeData` merge of the `updateTabVolume` branch: each
provided field overrides the current record, `hasAudio` is set to
`true`. -/
def mergeVolumeData (msg : RawMessage) (volumeData : TabVolumeData) : TabVolumeData :=
  { volume := if msg.volume ≠ .undefined then msg.volume.toNum else volumeData.volume
    muted := if msg.muted ≠ .undefined then msg.muted.toBool else volumeData.muted
    previousVolume :=
      if msg.previousVolume ≠ .undefined then msg.previousVolume.toNum
      else volumeData.previousVolume
    hasAudio := true
    isPlaying := volumeData.isPlaying
    tabUrl := volumeData.tabUrl }

/-- The `updateTabVolume` branch: field validation (tab id, volume,
previousVolume, muted — each only when present), then `chrome.tabs.get`,
then merge into the current record with `hasAudio` set to `true`, store,
persist, and deliver via `applyVolumeToTab`. -/
def handleUpdateTabVolume (st : SysState) (msg : RawMessage) (env : Env) : HandlerResult :=
  if ¬ isValidTabId msg.tabId then ⟨st, [.err "Invalid tabId"], []⟩
  else if msg.volume ≠ .undefined ∧ ¬ isValidVolume msg.volume then
    ⟨st, [.err "Invalid volume"], []⟩
  else if msg.previousVolume ≠ .undefined ∧ ¬ isValidVolume msg.previousVolume then
    ⟨st, [.err "Invalid previousVolume"], []⟩
  else if msg.muted ≠ .undefined ∧ (∀ b, msg.muted ≠ .boolean b) then
    ⟨st, [.err "Invalid muted state"], []⟩
  else
    match env.tabGet with
    | .error e => ⟨st, [.err e], []⟩
    | .ok tab =>
      let tabId := msg.tabId.toNum
      let g := getVolumeDataForTab st tabId tab.url
      let r := setAndSave g.2 tabId (mergeVolumeData msg g.1) tab.url
      match applyVolumeToTab tabId r.2 with
      | some cmd =>
        let q := sendMessageToTab r.1.messageQueues tabId cmd 0 env.now env.deliver
        ⟨{ r.1 with messageQueues := q.1 }, [.ok], [(tabId, cmd)]⟩
      | none => ⟨r.1, [.ok], []⟩

/-- The `getAudioStatus` branch: validates the sender tab id and returns
the current record's three fields. -/
def handleGetAudioStatus (st : SysState) (tabId : ℚ) (tabUrl : Option String) : HandlerResult :=
  if ¬ 0 < tabId then ⟨st, [.err "Invalid tabId"], []⟩
  else
    let g := getVolumeDataForTab st tabId tabUrl
    ⟨g.2, [.audioStatus g.1.volume g.1.muted g.1.previousVolume], []⟩

/-- The `updateTabStatus` branch: validates the sender tab id and the
`hasAudio` flag, then updates only `hasAudio` on the current record,
stores and persists it. -/
def handleUpdateTabStatus (st : SysState) (tabId : ℚ) (tabUrl : Option String)
    (hasAudio : JSVal) : HandlerResult :=
  if ¬ 0 < tabId then ⟨st, [.err "Invalid tabId"], []⟩
  else
    match hasAudio with
    | .boolean b =>
      let g := getVolumeDataForTab st tabId tabUrl
      let r := setAndSave g.2 tabId { g.1 with hasAudio := b } tabUrl
      ⟨r.1, [.ok], []⟩
    | _ => ⟨st, [.err "Invalid hasAudio value"], []⟩

/-- The sender-origin check at the top of the `onMessage` listener:
`sender.id && sender.id !== chrome.runtime.id`. -/
def unauthorizedSender (selfId : String) (sender : Sender) : Bool :=
  match sender.id with
  | some s => s != "" && s != selfId
  | none => false

/-- The message-structure check at the top of the `onMessage` listener:
`!message || typeof message !== "object" || !message.action`. -/
def invalidStructure (msg : RawMessage) : Bool :=
  !msg.isObj || !msg.action.truthy

/-- The `chrome.runtime.onMessage` listener of the background script.
Unauthorized senders and structurally invalid messages are dropped with
no response (`return false`); otherwise dispatch follows the source's
branch order, falling through to the `Unknown action` response. -/
def handleMessage (selfId : String) (st : SysState) (msg : RawMessage) (sender : Sender)
    (env : Env) : HandlerResult :=
  if unauthorizedSender selfId sender then ⟨st, [], []⟩
  else if invalidStructure msg then ⟨st, [], []⟩
  else if msg.action = .str "contentScriptReady" then
    match senderTabId sender with
    | some tid => handleContentScriptReady st tid env
    | none => unknownActionResult st
  else if msg.action = .str "getAudibleTabs" then handleGetAudibleTabs st env
  else if msg.action = .str "updateTabVolume" then handleUpdateTabVolume st msg env
  else if msg.action = .str "getAudioStatus" then
    match senderTabId sender with
    | some tid =>
      handleGetAudioStatus st tid ((sender.tab.map SenderTab.url).getD none)
    | none => unknownActionResult st
  else if msg.action = .str "updateTabStatus" then
    match senderTabId sender with
    | some tid =>
      handleUpdateTabStatus st tid ((sender.tab.map SenderTab.url).getD none) msg.hasAudio
    | none => unknownActionResult st
  else unknownActionResult st

/-- The `changeInfo` object of a `chrome.tabs.onUpdated` notification
(only the fields the handler reads). -/
structure UpdateInfo where
  status : Option String
  audible : Option Bool
  url : Option String
deriving DecidableEq

/-- The `changeInfo.audible` path of the `onUpdated` listener: on audio
start the tab is marked audible, its record fetched (possibly seeded
from the URL mapping), `hasAudio` forced true, stored and persisted, and
the (deferred) delivery command produced; on audio stop only the
audible marker is cleared. -/
def handleAudibleChange (st : SysState) (tabId : ℚ) (aud : Bool) (tab : ChromeTab) :
    SysState × List (ℚ × Command) :=
  if aud then
    let st0 := { st with audibleTabs := fun t => if t = tabId then true else st.audibleTabs t }
    let g := getVolumeDataForTab st0 tabId tab.url
    let r := setAndSave g.2 tabId { g.1 with hasAudio := true } tab.url
    (r.1,
      match applyVolumeToTab tabId r.2 with
      | some c => [(tabId, c)]
      | none => [])
  else
    ({ st with audibleTabs := fun t => if t = tabId then false else st.audibleTabs t }, [])

/-- The `changeInfo.url` path of the `onUpdated` listener: when the new
(truthy) address has a stored record, it is adopted for the tab's
in-memory entry, and redelivered if the tab is audible. -/
def handleUrlChange (st1 : SysState) (u : Option String) (tab : ChromeTab) :
    SysState × List (ℚ × Command) :=
  match u, tab.id with
  | some newUrl, some tid =>
    if newUrl ≠ "" ∧ tid ≠ 0 then
      match st1.urlVolumeSettings newUrl with
      | some data =>
        ({ st1 with tabVolumeSettings := fun t =>
            if t = tid then some data else st1.tabVolumeSettings t },
          if tab.audible then
            match applyVolumeToTab tid data with
            | some c => [(tid, c)]
            | none => []
          else [])
      | none => (st1, [])
    else (st1, [])
  | _, _ => (st1, [])

/-- The `chrome.tabs.onUpdated` listener.  The deferred
`processMessageQueue` of the `status === "complete"` path and the
deferred delivery of `applyVolumeToTab` run in later timer tasks; the
commands to deliver are returned and their queue effects are modelled by
separate `applySend` / `applySweep` transitions.  The popup broadcast of
the audible change is not modelled. -/
def handleTabUpdated (st : SysState) (tabId : ℚ) (info : UpdateInfo) (tab : ChromeTab) :
    SysState × List (ℚ × Command) :=
  if ¬ 0 < tabId then (st, [])
  else
    let audRes :=
      match info.audible with
      | some aud => handleAudibleChange st tabId aud tab
      | none => (st, [])
    let urlRes := handleUrlChange audRes.1 info.url tab
    (urlRes.1, audRes.2 ++ urlRes.2)

/-- The `chrome.tabs.onRemoved` listener: clears the audible marker, the
tab-scoped cache entry, and the tab's retry queue. -/
def handleTabRemoved (st : SysState) (tabId : ℚ) : SysState :=
  if ¬ 0 < tabId then st
  else
    { st with
        audibleTabs := fun t => if t = tabId then false else st.audibleTabs t
        tabVolumeSettings := fun t => if t = tabId then none else st.tabVolumeSettings t
        messageQueues := updateQ st.messageQueues tabId none }

/-- One `tab-volume-` item of the hydration loop: the parsed tab id
(`none` when `parseInt` yielded `NaN`) must be positive, and the raw
value is coerced through `validateVolumeData`. -/
def hydrateTabStep (m : ℚ → Option TabVolumeData) (item : Option ℚ × RawData) :
    ℚ → Option TabVolumeData :=
  match item.1 with
  | some tid =>
    if 0 < tid then fun t => if t = tid then some (validateVolumeData item.2) else m t
    else m
  | none => m

/-- The startup hydration loop over `tab-volume-` keys. -/
def hydrateTabMap (items : List (Option ℚ × RawData)) : ℚ → Option TabVolumeData :=
  items.foldl hydrateTabStep (fun _ => none)

/-- One `url-volume-` item of the hydration loop: the stripped URL must
be truthy (nonempty), and the raw value is coerced through
`validateVolumeData`. -/
def hydrateUrlStep (m : String → Option TabVolumeData) (item : String × RawData) :
    String → Option TabVolumeData :=
  if item.1 ≠ "" then fun u => if u = item.1 then some (validateVolumeData item.2) else m u
  else m

/-- The startup hydration loop over `url-volume-` keys. -/
def hydrateUrlMap (items : List (String × RawData)) : String → Option TabVolumeData :=
  items.foldl hydrateUrlStep (fun _ => none)

/-- The state right after the `chrome.storage.local.get(null, ...)`
startup hydration: the two mappings are rebuilt from the stored items,
no tab is marked audible, and the queues are empty.  The durable store
itself is an arbitrary snapshot. -/
def hydrate (tabItems : List (Option ℚ × RawData)) (urlItems : List (String × RawData))
    (tabStore0 : ℚ → Option TabVolumeData) (urlStore0 : String → Option TabVolumeData) :
    SysState :=
  { tabVolumeSettings := hydrateTabMap tabItems
    urlVolumeSettings := hydrateUrlMap urlItems
    audibleTabs := fun _ => false
    tabStore := tabStore0
    urlStore := urlStore0
    messageQueues := fun _ => none }

/-- A deferred `sendMessageToTab` delivery attempt, as a transition on
the system state (only the queue map can change). -/
def applySend (st : SysState) (tabId : ℚ) (c : Command) (retryCount : ℕ) (now : ℤ)
    (deliverOk : Bool) : SysState :=
  { st with messageQueues := (sendMessageToTab st.messageQueues tabId c retryCount now deliverOk).1 }

/-- A `processMessageQueue` sweep (periodic timer or deferred trigger),
as a transition on the system state. -/
def applySweep (st : SysState) (tabId : ℚ) (now : ℤ) (ok : ℕ → Bool) : SysState :=
  { st with messageQueues := (processMessageQueue st.messageQueues tabId now ok).1 }

/-- The states the background script can be in: hydration followed by
any interleaving of message dispatches, tab lifecycle notifications, and
deferred delivery / sweep tasks. -/
inductive Reachable : SysState → Prop
  | init (tabItems : List (Option ℚ × RawData)) (urlItems : List (String × RawData))
      (tabStore0 : ℚ → Option TabVolumeData) (urlStore0 : String → Option TabVolumeData) :
      Reachable (hydrate tabItems urlItems tabStore0 urlStore0)
  | msg (st : SysState) (selfId : String) (m : RawMessage) (sender : Sender) (env : Env) :
      Reachable st → Reachable (handleMessage selfId st m sender env).state
  | updated (st : SysState) (tabId : ℚ) (info : UpdateInfo) (tab : ChromeTab) :
      Reachable st → Reachable (handleTabUpdated st tabId info tab).1
  | removed (st : SysState) (tabId : ℚ) :
      Reachable st → Reachable (handleTabRemoved st tabId)
  | send (st : SysState) (tabId : ℚ) (c : Command) (retryCount : ℕ) (now : ℤ) (deliverOk : Bool) :
      Reachable st → Reachable (applySend st tabId c retryCount now deliverOk)
  | sweep (st : SysState) (tabId : ℚ) (now : ℤ) (ok : ℕ → Bool) :
      Reachable st → Reachable (applySweep st tabId now ok)

/-- Boundedness of a raw queue map. -/
def queuesBounded (qs : Queues) : Prop :=
  ∀ t q, qs t = some q → q.length ≤ MAX_QUEUE_SIZE

/-- Both volume fields of a record lie in [0, 100]. -/
def volumeInRange (d : TabVolumeData) : Prop :=
  0 ≤ d.volume ∧ d.volume ≤ 100 ∧ 0 ≤ d.previousVolume ∧ d.previousVolume ≤ 100

/-- Every record held in either in-memory mapping is in range. -/
def cacheInv (st : SysState) : Prop :=
  (∀ t d, st.tabVolumeSettings t = some d → volumeInRange d) ∧
  (∀ u d, st.urlVolumeSettings u = some d → volumeInRange d)

/-- Every retry queue holds at most `MAX_QUEUE_SIZE` entries. -/
def queueLenInv (st : SysState) : Prop :=
  queuesBounded st.messageQueues

/-- The two in-memory mappings and the two durable key families are
unchanged between two states. -/
def sameVolumeState (st st' : SysState) : Prop :=
  st'.tabVolumeSettings = st.tabVolumeSettings ∧
  st'.urlVolumeSettings = st.urlVolumeSettings ∧
  st'.tabStore = st.tabStore ∧ st'.urlStore = st.urlStore

/-- The action strings the router dispatches on. -/
def recognizedActions : List String :=
  ["contentScriptReady", "getAudibleTabs", "updateTabVolume", "getAudioStatus",
    "updateTabStatus"]

/-- For the sender-scoped actions: the sender tab id required by the
branch is absent, falsy, or not a valid (positive) tab id. -/
def badTabSender (sender : Sender) : Prop :=
  senderTabId sender = none ∨ ∃ t, senderTabId sender = some t ∧ ¬ 0 < t

/-- For `updateTabVolume`: some required or optional field of the
request is malformed (invalid tab id; present but invalid volume or
previousVolume; present but non-boolean muted). -/
def badUpdateFields (msg : RawMessage) : Prop :=
  ¬ isValidTabId msg.tabId ∨
  (msg.volume ≠ .undefined ∧ ¬ isValidVolume msg.volume) ∨
  (msg.previousVolume ≠ .undefined ∧ ¬ isValidVolume msg.previousVolume) ∨
  (msg.muted ≠ .undefined ∧ ∀ b, msg.muted ≠ .boolean b)

/-- The condition under which a queued entry is actually re-sent by a
sweep at time `now`: structurally valid, aged in [1000, 60000)
milliseconds, and below the retry ceiling. -/
def sweepEligible (now : ℤ) (e : QueueEntry) : Bool :=
  e.message.action != "" && decide (1000 ≤ now - e.time) &&
    decide (now - e.time < 60000) && decide (e.retryCount < MAX_RETRIES)

/-- An empty system state used by concrete witnesses. -/
def emptyState : SysState :=
  { tabVolumeSettings := fun _ => none
    urlVolumeSettings := fun _ => none
    audibleTabs := fun _ => false
    tabStore := fun _ => none
    urlStore := fun _ => none
    messageQueues := fun _ => none }

/-- A state holding one tab-scoped record for tab 42 (used by concrete
witnesses and counterexamples). -/
def stateTab42 (d : TabVolumeData) : SysState :=
  { emptyState with tabVolumeSettings := fun t => if t = 42 then some d else none }

/-- A state holding one address-scoped record (used by concrete
witnesses). -/
def stateUrlA (d : TabVolumeData) : SysState :=
  { emptyState with urlVolumeSettings := fun u => if u = "https://a.example" then some d else none }

/-- A benign environment for concrete dispatches: `chrome.tabs.get`
succeeds with a URL-less tab, deliveries succeed. -/
def plainEnv : Env :=
  { tabGet := .ok ⟨none, none, false⟩
    queryTabs := []
    now := 0
    deliver := true
    ok := fun _ => true }

/-- A sender with no `id` and no `tab` (an authorized popup sender). -/
def plainSender : Sender := ⟨none, none⟩

/-- A well-formed `updateTabVolume` request against tab 42, with the
given volume / muted / previousVolume fields. -/
def updateMsg (volume muted previousVolume : JSVal) : RawMessage :=
  { isObj := true
    action := .str "updateTabVolume"
    tabId := .num 42
    volume := volume
    muted := muted
    previousVolume := previousVolume
    hasAudio := .undefined }

/-- Claim C10: the command `applyVolumeToTab` hands to the delivery
layer is selected solely by the record's `muted` flag — `toggleMute`
when muted, `setVolume` when not — and in both cases carries all three
of `volume`, `muted` and `previousVolume`. -/
theorem C10_command_shape (tabId : ℚ) (d : TabVolumeData) :
    (0 < tabId → ∃ c, applyVolumeToTab tabId d = some c ∧
      c.action = (if d.muted then "toggleMute" else "setVolume") ∧
      c.volume = d.volume ∧ c.muted = d.muted ∧ c.previousVolume = d.previousVolume) ∧
    (∀ d' c c', d.muted = d'.muted → applyVolumeToTab tabId d = some c →
      applyVolumeToTab tabId d' = some c' → c.action = c'.action) := by
  constructor
  · intro ht
    refine ⟨{ action := if d.muted then "toggleMute" else "setVolume", volume := d.volume,
              muted := d.muted, previousVolume := d.previousVolume }, ?_, rfl, rfl, rfl, rfl⟩
    simp [applyVolumeToTab, ht]
  · intro d' c c' hm hc hc'
    unfold applyVolumeToTab at hc hc'
    by_cases ht : 0 < tabId
    · simp only [if_pos ht, Option.some.injEq] at hc hc'
      subst hc
      subst hc'
      simp [hm]
    · simp [if_neg ht] at hc

/-- Witness for C10 at a concrete muted record and tab. -/
theorem C10_command_shape_witness :
    ∃ c, applyVolumeToTab 42 ⟨30, 70, true, true, none, none⟩ = some c ∧
      c.action = (if true then "toggleMute" else "setVolume") ∧
      c.volume = 30 ∧ c.muted = true ∧ c.previousVolume = 70 :=
  (C10_command_shape 42 ⟨30, 70, true, true, none, none⟩).1 (by norm_num)

/-- Claim C7: `getVolumeDataForTab` returns the tab-mapped record when
present; otherwise, for a truthy URL with an address-scoped record, it
returns that record's values, materializes them under the tab id (so a
subsequent lookup by tab id alone yields the same values without the
address mapping) and schedules a persistence write; otherwise it returns
the default record `{volume 100, previousVolume 100, muted false,
hasAudio true}`. -/
theorem C7_lookup_order :
    (∀ st t url d, 0 < t → st.tabVolumeSettings t = some d →
      getVolumeDataForTab st t url = (d, st)) ∧
    (∀ st t url d, 0 < t → st.tabVolumeSettings t = none → url ≠ "" →
      st.urlVolumeSettings url = some d →
      ∃ r st', getVolumeDataForTab st t (some url) = (r, st') ∧
        r.volume = d.volume ∧ r.previousVolume = d.previousVolume ∧
        r.muted = d.muted ∧ r.hasAudio = d.hasAudio ∧
        st'.tabVolumeSettings t = some r ∧
        getVolumeDataForTab st' t none = (r, st') ∧
        st'.tabStore t = some d) ∧
    (∀ st t, 0 < t → st.tabVolumeSettings t = none →
      getVolumeDataForTab st t none = (getDefaultVolumeData, st) ∧
      (∀ url, url ≠ "" → st.urlVolumeSettings url = none →
        getVolumeDataForTab st t (some url) = (getDefaultVolumeData, st)) ∧
      getDefaultVolumeData = ⟨100, 100, false, true, none, none⟩) := by
  refine ⟨?_, ?_, ?_⟩
  · intro st t url d ht hd
    unfold getVolumeDataForTab
    simp [ht, hd]
  · intro st t url d ht hnone hurl hsome
    refine ⟨(setAndSave st t d (some url)).2, (setAndSave st t d (some url)).1, ?_, ?_, ?_, ?_, ?_, ?_, ?_, ?_⟩
    · unfold getVolumeDataForTab
      simp [ht, hnone, hurl, hsome]
    · simp [setAndSave, saveTabVolume, ht, hurl]
    · simp [setAndSave, saveTabVolume, ht, hurl]
    · simp [setAndSave, saveTabVolume, ht, hurl]
    · simp [setAndSave, saveTabVolume, ht, hurl]
    · simp [setAndSave]
    · unfold getVolumeDataForTab
      simp [ht, setAndSave]
    · simp [setAndSave, saveTabVolume, ht, hurl]
  · intro st t ht hnone
    refine ⟨?_, ?_, rfl⟩
    · unfold getVolumeDataForTab
      simp [ht, hnone]
    · intro url hurl hu
      unfold getVolumeDataForTab
      simp [ht, hnone, hurl, hu]

/-- Witness for C7 at concrete states: a tab-mapped hit, a URL fallback,
and the default case. -/
theorem C7_lookup_order_witness :
    (getVolumeDataForTab (stateTab42 ⟨50, 60, false, true, none, none⟩) 42 none
      = (⟨50, 60, false, true, none, none⟩, stateTab42 ⟨50, 60, false, true, none, none⟩)) ∧
    (∃ r st',
      getVolumeDataForTab (stateUrlA ⟨30, 80, true, true, none, none⟩)
        7 (some "https://a.example") = (r, st') ∧
      r.volume = 30 ∧ r.previousVolume = 80 ∧ r.muted = true ∧ r.hasAudio = true ∧
      st'.tabVolumeSettings 7 = some r ∧
      getVolumeDataForTab st' 7 none = (r, st') ∧
      st'.tabStore 7 = some ⟨30, 80, true, true, none, none⟩) := by
  constructor
  · exact C7_lookup_order.1 _ 42 none _ (by norm_num) (by simp [stateTab42, emptyState])
  · have h := C7_lookup_order.2.1 (stateUrlA ⟨30, 80, true, true, none, none⟩)
      7 "https://a.example" ⟨30, 80, true, true, none, none⟩ (by norm_num)
      (by simp [stateUrlA, emptyState]) (by simp) (by simp [stateUrlA, emptyState])
    obtain ⟨r, st', h1, h2, h3, h4, h5, h6, h7, h8⟩ := h
    exact ⟨r, st', h1, h2, h3, h4, h5, h6, h7, h8⟩

theorem updateQ_bounded (qs : Queues) (tabId : ℚ) (v : Option (List QueueEntry))
    (h : queuesBounded qs) (hv : ∀ q, v = some q → q.length ≤ MAX_QUEUE_SIZE) :
    queuesBounded (updateQ qs tabId v) := by
  intro t q hq
  unfold updateQ at hq
  by_cases ht : t = tabId
  · rw [if_pos ht] at hq
    exact hv q hq
  · rw [if_neg ht] at hq
    exact h t q hq

theorem getD_length_bounded (qs : Queues) (tabId : ℚ) (h : queuesBounded qs) :
    ((qs tabId).getD []).length ≤ MAX_QUEUE_SIZE := by
  cases hq : qs tabId with
  | none => simp [MAX_QUEUE_SIZE]
  | some q => simpa using h tabId q hq

theorem sendMessageToTab_bounded (qs : Queues) (tabId : ℚ) (c : Command) (rc : ℕ) (now : ℤ)
    (dok : Bool) (h : queuesBounded qs) :
    queuesBounded (sendMessageToTab qs tabId c rc now dok).1 := by
  unfold sendMessageToTab
  split_ifs with h1 h2 h3 h4
  any_goals exact h
  apply updateQ_bounded _ _ _ h
  intro q hq
  rw [Option.some_inj] at hq
  subst hq
  by_cases hl : ((qs tabId).getD []).length < MAX_QUEUE_SIZE
  · simp only [if_pos hl, List.length_append, List.length_singleton]
    omega
  · simp only [if_neg hl]
    exact getD_length_bounded qs tabId h

theorem sweepStep_bounded (tabId : ℚ) (now : ℤ) (ok : ℕ → Bool) (acc : SweepAcc)
    (item : QueueEntry) (h : queuesBounded acc.queues) :
    queuesBounded (sweepStep tabId now ok acc item).queues := by
  unfold sweepStep
  split_ifs with h1 h2 h3
  any_goals exact h
  any_goals exact sendMessageToTab_bounded _ _ _ _ _ _ h
  apply updateQ_bounded _ _ _ h
  intro q hq
  rw [Option.some_inj] at hq
  subst hq
  by_cases hl : ((acc.queues tabId).getD []).length < MAX_QUEUE_SIZE
  · simp only [if_pos hl, List.length_append, List.length_singleton]
    omega
  · simp only [if_neg hl]
    exact getD_length_bounded _ _ h

theorem foldl_sweep_bounded (tabId : ℚ) (now : ℤ) (ok : ℕ → Bool) :
    ∀ (l : List QueueEntry) (acc : SweepAcc), queuesBounded acc.queues →
      queuesBounded ((l.foldl (sweepStep tabId now ok) acc).queues) := by
  intro l
  induction l with
  | nil => intro acc h; exact h
  | cons a l ih =>
    intro acc h
    exact ih _ (sweepStep_bounded tabId now ok acc a h)

theorem processMessageQueue_bounded (qs : Queues) (tabId : ℚ) (now : ℤ) (ok : ℕ → Bool)
    (h : queuesBounded qs) :
    queuesBounded (processMessageQueue qs tabId now ok).1 := by
  unfold processMessageQueue
  by_cases h1 : ¬ 0 < tabId
  · rw [if_pos h1]
    exact h
  rw [if_neg h1]
  cases hq : qs tabId with
  | none => exact h
  | some queue =>
    by_cases hl : queue.length = 0
    · simp only [hl, if_pos rfl]
      exact h
    · simp only [if_neg hl]
      apply foldl_sweep_bounded
      apply updateQ_bounded _ _ _ h
      intro q hq'
      rw [Option.some_inj] at hq'
      subst hq'
      simp [MAX_QUEUE_SIZE]

theorem saveTabVolume_frame (st : SysState) (t : ℚ) (d : TabVolumeData) (u : Option String) :
    (saveTabVolume st t d u).1.messageQueues = st.messageQueues ∧
    (saveTabVolume st t d u).1.audibleTabs = st.audibleTabs ∧
    (saveTabVolume st t d u).1.tabVolumeSettings = st.tabVolumeSettings := by
  unfold saveTabVolume
  by_cases h1 : ¬ 0 < t
  · rw [if_pos h1]
    exact ⟨rfl, rfl, rfl⟩
  · rw [if_neg h1]
    cases u with
    | none => exact ⟨rfl, rfl, rfl⟩
    | some url =>
      dsimp only
      by_cases h2 : url = ""
      · rw [if_pos h2]
        exact ⟨rfl, rfl, rfl⟩
      · rw [if_neg h2]
        exact ⟨rfl, rfl, rfl⟩

theorem setAndSave_frame (st : SysState) (t : ℚ) (d : TabVolumeData) (u : Option String) :
    (setAndSave st t d u).1.messageQueues = st.messageQueues ∧
    (setAndSave st t d u).1.audibleTabs = st.audibleTabs := by
  unfold setAndSave
  exact ⟨(saveTabVolume_frame st t d u).1, (saveTabVolume_frame st t d u).2.1⟩

theorem getVolumeDataForTab_frame (st : SysState) (t : ℚ) (u : Option String) :
    (getVolumeDataForTab st t u).2.messageQueues = st.messageQueues ∧
    (getVolumeDataForTab st t u).2.audibleTabs = st.audibleTabs := by
  unfold getVolumeDataForTab
  by_cases h1 : ¬ 0 < t
  · rw [if_pos h1]
    exact ⟨rfl, rfl⟩
  · rw [if_neg h1]
    cases htab : st.tabVolumeSettings t with
    | some d => exact ⟨rfl, rfl⟩
    | none =>
      cases u with
      | none => exact ⟨rfl, rfl⟩
      | some url =>
        dsimp only
        by_cases h2 : url = ""
        · rw [if_pos h2]
          exact ⟨rfl, rfl⟩
        · rw [if_neg h2]
          cases hu : st.urlVolumeSettings url with
          | some d => exact setAndSave_frame st t d (some url)
          | none => exact ⟨rfl, rfl⟩

theorem gatStep_frame (s : SysState) (tab : ChromeTab) :
    (gatStep s tab).messageQueues = s.messageQueues ∧
    (gatStep s tab).audibleTabs = s.audibleTabs := by
  unfold gatStep
  cases tab.id with
  | some tid => exact getVolumeDataForTab_frame s tid tab.url
  | none => exact ⟨rfl, rfl⟩

theorem gatFold_frame (l : List ChromeTab) :
    ∀ s : SysState, (l.foldl gatStep s).messageQueues = s.messageQueues := by
  induction l with
  | nil => intro s; rfl
  | cons a l ih =>
    intro s
    rw [List.foldl_cons, ih (gatStep s a), (gatStep_frame s a).1]

theorem handleContentScriptReady_queues (st : SysState) (tid : ℚ) (env : Env)
    (h : queueLenInv st) : queueLenInv (handleContentScriptReady st tid env).state := by
  unfold handleContentScriptReady
  by_cases hv : ¬ 0 < tid
  · rw [if_pos hv]
    exact h
  · rw [if_neg hv]
    exact processMessageQueue_bounded _ _ _ _ h

theorem handleGetAudibleTabs_queues (st : SysState) (env : Env)
    (h : queueLenInv st) : queueLenInv (handleGetAudibleTabs st env).state := by
  unfold handleGetAudibleTabs
  show queuesBounded (List.foldl gatStep st _).messageQueues
  rw [gatFold_frame]
  exact h

theorem handleUpdateTabVolume_queues (st : SysState) (msg : RawMessage) (env : Env)
    (h : queueLenInv st) : queueLenInv (handleUpdateTabVolume st msg env).state := by
  unfold handleUpdateTabVolume
  by_cases v1 : ¬ isValidTabId msg.tabId
  · rw [if_pos v1]; exact h
  rw [if_neg v1]
  by_cases v2 : msg.volume ≠ .undefined ∧ ¬ isValidVolume msg.volume
  · rw [if_pos v2]; exact h
  rw [if_neg v2]
  by_cases v3 : msg.previousVolume ≠ .undefined ∧ ¬ isValidVolume msg.previousVolume
  · rw [if_pos v3]; exact h
  rw [if_neg v3]
  by_cases v4 : msg.muted ≠ .undefined ∧ ∀ b, msg.muted ≠ .boolean b
  · rw [if_pos v4]; exact h
  rw [if_neg v4]
  cases env.tabGet with
  | error e => exact h
  | ok tab =>
    dsimp only
    cases applyVolumeToTab msg.tabId.toNum
        (setAndSave (getVolumeDataForTab st msg.tabId.toNum tab.url).2 msg.tabId.toNum
          (mergeVolumeData msg (getVolumeDataForTab st msg.tabId.toNum tab.url).1) tab.url).2 with
    | some cmd =>
      show queuesBounded (sendMessageToTab _ _ _ _ _ _).1
      apply sendMessageToTab_bounded
      show queuesBounded (setAndSave _ _ _ _).1.messageQueues
      rw [(setAndSave_frame _ _ _ _).1, (getVolumeDataForTab_frame _ _ _).1]
      exact h
    | none =>
      show queuesBounded (setAndSave _ _ _ _).1.messageQueues
      rw [(setAndSave_frame _ _ _ _).1, (getVolumeDataForTab_frame _ _ _).1]
      exact h

theorem handleGetAudioStatus_queues (st : SysState) (tid : ℚ) (u : Option String)
    (h : queueLenInv st) : queueLenInv (handleGetAudioStatus st tid u).state := by
  unfold handleGetAudioStatus
  by_cases hv : ¬ 0 < tid
  · rw [if_pos hv]; exact h
  · rw [if_neg hv]
    show queuesBounded (getVolumeDataForTab _ _ _).2.messageQueues
    rw [(getVolumeDataForTab_frame _ _ _).1]
    exact h

theorem handleUpdateTabStatus_queues (st : SysState) (tid : ℚ) (u : Option String)
    (hasAudio : JSVal) (h : queueLenInv st) :
    queueLenInv (handleUpdateTabStatus st tid u hasAudio).state := by
  unfold handleUpdateTabStatus
  by_cases hv : ¬ 0 < tid
  · rw [if_pos hv]; exact h
  · rw [if_neg hv]
    cases hasAudio with
    | boolean b =>
      show queuesBounded (setAndSave _ _ _ _).1.messageQueues
      rw [(setAndSave_frame _ _ _ _).1, (getVolumeDataForTab_frame _ _ _).1]
      exact h
    | undefined => exact h
    | null => exact h
    | num q => exact h
    | nan => exact h
    | str s => exact h

theorem handleMessage_queueLenInv (selfId : String) (st : SysState) (msg : RawMessage)
    (sender : Sender) (env : Env) (h : queueLenInv st) :
    queueLenInv (handleMessage selfId st msg sender env).state := by
  unfold handleMessage
  split_ifs with h1 h2 h3 h4 h5 h6 h7
  · exact h
  · exact h
  · cases senderTabId sender with
    | some tid => exact handleContentScriptReady_queues st tid env h
    | none => exact h
  · exact handleGetAudibleTabs_queues st env h
  · exact handleUpdateTabVolume_queues st msg env h
  · cases senderTabId sender with
    | some tid => exact handleGetAudioStatus_queues st tid _ h
    | none => exact h
  · cases senderTabId sender with
    | some tid => exact handleUpdateTabStatus_queues st tid _ _ h
    | none => exact h
  · exact h


theorem handleAudibleChange_queues (st : SysState) (tabId : ℚ) (aud : Bool) (tab : ChromeTab) :
    (handleAudibleChange st tabId aud tab).1.messageQueues = st.messageQueues := by
  unfold handleAudibleChange
  cases aud with
  | false => rfl
  | true =>
    dsimp only
    cases applyVolumeToTab tabId
        (setAndSave (getVolumeDataForTab
            { st with audibleTabs := fun t => if t = tabId then true else st.audibleTabs t }
            tabId tab.url).2 tabId _ tab.url).2 with
    | some c =>
      show (setAndSave _ _ _ _).1.messageQueues = _
      rw [(setAndSave_frame _ _ _ _).1, (getVolumeDataForTab_frame _ _ _).1]
    | none =>
      show (setAndSave _ _ _ _).1.messageQueues = _
      rw [(setAndSave_frame _ _ _ _).1, (getVolumeDataForTab_frame _ _ _).1]

theorem handleUrlChange_queues (st1 : SysState) (u : Option String) (tab : ChromeTab) :
    (handleUrlChange st1 u tab).1.messageQueues = st1.messageQueues := by
  unfold handleUrlChange
  cases u with
  | none => cases tab.id <;> rfl
  | some newUrl =>
    cases tab.id with
    | none => rfl
    | some tid =>
      dsimp only
      by_cases hc : newUrl ≠ "" ∧ tid ≠ 0
      · rw [if_pos hc]
        cases st1.urlVolumeSettings newUrl <;> rfl
      · rw [if_neg hc]

theorem handleTabUpdated_queues (st : SysState) (tabId : ℚ) (info : UpdateInfo)
    (tab : ChromeTab) :
    (handleTabUpdated st tabId info tab).1.messageQueues = st.messageQueues := by
  unfold handleTabUpdated
  by_cases h1 : ¬ 0 < tabId
  · rw [if_pos h1]
  · rw [if_neg h1]
    dsimp only
    cases info.audible with
    | some aud =>
      rw [handleUrlChange_queues, handleAudibleChange_queues]
    | none =>
      rw [handleUrlChange_queues]

theorem handleTabRemoved_queues (st : SysState) (tabId : ℚ) (h : queueLenInv st) :
    queueLenInv (handleTabRemoved st tabId) := by
  unfold handleTabRemoved
  by_cases h1 : ¬ 0 < tabId
  · rw [if_pos h1]
    exact h
  · rw [if_neg h1]
    apply updateQ_bounded _ _ _ h
    intro q hq
    cases hq

theorem reachable_queueLenInv (st : SysState) (hr : Reachable st) : queueLenInv st := by
  induction hr with
  | init tabItems urlItems tabStore0 urlStore0 =>
    intro t q hq
    cases hq
  | msg st selfId m sender env _ ih => exact handleMessage_queueLenInv selfId st m sender env ih
  | updated st tabId info tab _ ih =>
    show queuesBounded (handleTabUpdated st tabId info tab).1.messageQueues
    rw [handleTabUpdated_queues]
    exact ih
  | removed st tabId _ ih => exact handleTabRemoved_queues st tabId ih
  | send st tabId c rc now dok _ ih => exact sendMessageToTab_bounded _ _ _ _ _ _ ih
  | sweep st tabId now ok _ ih => exact processMessageQueue_bounded _ _ _ _ ih

/-- Claim C8: in every reachable state every pending-delivery queue
holds at most `MAX_QUEUE_SIZE` (50) entries, and an enqueue against a
full queue leaves that queue exactly as it was — the new entry is
dropped and no existing entry is evicted. -/
theorem C8_queue_bound :
    (∀ st, Reachable st → ∀ t q, st.messageQueues t = some q → q.length ≤ MAX_QUEUE_SIZE) ∧
    (∀ (qs : Queues) (t : ℚ) (q : List QueueEntry) (c : Command) (rc : ℕ) (now : ℤ)
      (dok : Bool), qs t = some q → MAX_QUEUE_SIZE ≤ q.length →
      (sendMessageToTab qs t c rc now dok).1 t = some q) := by
  constructor
  · intro st hr t q hq
    exact reachable_queueLenInv st hr t q hq
  · intro qs t q c rc now dok hq hfull
    unfold sendMessageToTab
    split_ifs with h1 h2 h3 h4
    any_goals exact hq
    show updateQ qs t _ t = some q
    unfold updateQ
    rw [if_pos rfl, hq]
    dsimp only [Option.getD_some]
    rw [if_neg (by omega), Option.some_inj]

/-- Witness for C8: the invariant at a concrete reachable state with a
queued entry, and a concrete full-queue enqueue that drops the new entry
and keeps the 50 existing ones. -/
theorem C8_queue_bound_witness :
    (∀ q, (applySend (hydrate [] [] (fun _ => none) (fun _ => none)) 1
        ⟨"setVolume", 40, false, 40⟩ 0 0 false).messageQueues 1 = some q →
      q.length ≤ MAX_QUEUE_SIZE) ∧
    (sendMessageToTab
        (updateQ (fun _ => none) 1 (some (List.replicate 50 ⟨⟨"setVolume", 40, false, 40⟩, 1, 0⟩)))
        1 ⟨"toggleMute", 0, true, 40⟩ 0 7 false).1 1 =
      some (List.replicate 50 ⟨⟨"setVolume", 40, false, 40⟩, 1, 0⟩) := by
  constructor
  · intro q hq
    exact C8_queue_bound.1 _
      (Reachable.send _ 1 ⟨"setVolume", 40, false, 40⟩ 0 0 false
        (Reachable.init [] [] (fun _ => none) (fun _ => none))) 1 q hq
  · exact C8_queue_bound.2 _ 1 _ _ 0 7 false (by rw [updateQ, if_pos rfl]) (by simp [MAX_QUEUE_SIZE])

theorem default_inRange : volumeInRange getDefaultVolumeData :=
  ⟨by norm_num [getDefaultVolumeData], by norm_num [getDefaultVolumeData],
    by norm_num [getDefaultVolumeData], by norm_num [getDefaultVolumeData]⟩

theorem isValidVolume_range (v : JSVal) (h : isValidVolume v = true) :
    0 ≤ v.toNum ∧ v.toNum ≤ 100 := by
  cases v with
  | num q =>
    simp only [isValidVolume, decide_eq_true_eq] at h
    simpa [JSVal.toNum] using h
  | undefined => simp [isValidVolume] at h
  | null => simp [isValidVolume] at h
  | nan => simp [isValidVolume] at h
  | boolean b => simp [isValidVolume] at h
  | str s => simp [isValidVolume] at h

theorem validateVolumeData_inRange (raw : RawData) :
    volumeInRange (validateVolumeData raw) := by
  cases raw with
  | notObj => exact default_inRange
  | obj v pv m ha ip u =>
    refine ⟨?_, ?_, ?_, ?_⟩ <;> dsimp only [validateVolumeData, volumeInRange]
    · by_cases hv : isValidVolume v
      · rw [if_pos hv]; exact (isValidVolume_range v hv).1
      · rw [if_neg hv]; norm_num [getDefaultVolumeData]
    · by_cases hv : isValidVolume v
      · rw [if_pos hv]; exact (isValidVolume_range v hv).2
      · rw [if_neg hv]; norm_num [getDefaultVolumeData]
    · by_cases hv : isValidVolume pv
      · rw [if_pos hv]; exact (isValidVolume_range pv hv).1
      · rw [if_neg hv]; norm_num [getDefaultVolumeData]
    · by_cases hv : isValidVolume pv
      · rw [if_pos hv]; exact (isValidVolume_range pv hv).2
      · rw [if_neg hv]; norm_num [getDefaultVolumeData]

theorem hydrateTabStep_inRange (m : ℚ → Option TabVolumeData) (item : Option ℚ × RawData)
    (h : ∀ t d, m t = some d → volumeInRange d) :
    ∀ t d, hydrateTabStep m item t = some d → volumeInRange d := by
  intro t d hd
  unfold hydrateTabStep at hd
  cases hi : item.1 with
  | none => rw [hi] at hd; exact h t d hd
  | some tid =>
    rw [hi] at hd
    dsimp only at hd
    by_cases ht : 0 < tid
    · rw [if_pos ht] at hd
      by_cases htt : t = tid
      · rw [if_pos htt, Option.some_inj] at hd
        rw [← hd]
        exact validateVolumeData_inRange _
      · rw [if_neg htt] at hd
        exact h t d hd
    · rw [if_neg ht] at hd
      exact h t d hd

theorem hydrateUrlStep_inRange (m : String → Option TabVolumeData) (item : String × RawData)
    (h : ∀ u d, m u = some d → volumeInRange d) :
    ∀ u d, hydrateUrlStep m item u = some d → volumeInRange d := by
  intro u d hd
  unfold hydrateUrlStep at hd
  by_cases he : item.1 ≠ ""
  · rw [if_pos he] at hd
    by_cases hu : u = item.1
    · rw [if_pos hu, Option.some_inj] at hd
      rw [← hd]
      exact validateVolumeData_inRange _
    · rw [if_neg hu] at hd
      exact h u d hd
  · rw [if_neg he] at hd
    exact h u d hd

theorem hydrateTabFold_inRange (items : List (Option ℚ × RawData)) :
    ∀ m, (∀ t d, m t = some d → volumeInRange d) →
      ∀ t d, (items.foldl hydrateTabStep m) t = some d → volumeInRange d := by
  induction items with
  | nil => intro m h; exact h
  | cons a l ih => intro m h; exact ih _ (hydrateTabStep_inRange m a h)

theorem hydrateUrlFold_inRange (items : List (String × RawData)) :
    ∀ m, (∀ u d, m u = some d → volumeInRange d) →
      ∀ u d, (items.foldl hydrateUrlStep m) u = some d → volumeInRange d := by
  induction items with
  | nil => intro m h; exact h
  | cons a l ih => intro m h; exact ih _ (hydrateUrlStep_inRange m a h)

theorem hydrate_cacheInv (tabItems : List (Option ℚ × RawData))
    (urlItems : List (String × RawData)) (tabStore0 : ℚ → Option TabVolumeData)
    (urlStore0 : String → Option TabVolumeData) :
    cacheInv (hydrate tabItems urlItems tabStore0 urlStore0) := by
  constructor
  · exact hydrateTabFold_inRange tabItems _ (fun t d hd => by cases hd)
  · exact hydrateUrlFold_inRange urlItems _ (fun u d hd => by cases hd)

theorem saveTabVolume_snd_range (st : SysState) (t : ℚ) (d : TabVolumeData)
    (u : Option String) (hd : volumeInRange d) :
    volumeInRange (saveTabVolume st t d u).2 := by
  unfold saveTabVolume
  by_cases h1 : ¬ 0 < t
  · rw [if_pos h1]; exact hd
  rw [if_neg h1]
  cases u with
  | none => exact hd
  | some url =>
    dsimp only
    by_cases h2 : url = ""
    · rw [if_pos h2]; exact hd
    · rw [if_neg h2]; exact hd

theorem saveTabVolume_cacheInv (st : SysState) (t : ℚ) (d : TabVolumeData)
    (u : Option String) (h : cacheInv st) (hd : volumeInRange d) :
    cacheInv (saveTabVolume st t d u).1 := by
  unfold saveTabVolume
  by_cases h1 : ¬ 0 < t
  · rw [if_pos h1]; exact h
  rw [if_neg h1]
  cases u with
  | none => exact h
  | some url =>
    dsimp only
    by_cases h2 : url = ""
    · rw [if_pos h2]; exact h
    · rw [if_neg h2]
      refine ⟨h.1, ?_⟩
      intro u' d' hd'
      dsimp only at hd'
      by_cases hu : u' = url
      · rw [if_pos hu, Option.some_inj] at hd'
        rw [← hd']
        exact hd
      · rw [if_neg hu] at hd'
        exact h.2 u' d' hd'

theorem setAndSave_snd_range (st : SysState) (t : ℚ) (d : TabVolumeData) (u : Option String)
    (hd : volumeInRange d) : volumeInRange (setAndSave st t d u).2 :=
  saveTabVolume_snd_range st t d u hd

theorem setAndSave_cacheInv (st : SysState) (t : ℚ) (d : TabVolumeData) (u : Option String)
    (h : cacheInv st) (hd : volumeInRange d) : cacheInv (setAndSave st t d u).1 := by
  unfold setAndSave
  refine ⟨?_, (saveTabVolume_cacheInv st t d u h hd).2⟩
  intro t' d' hd'
  dsimp only at hd'
  by_cases ht : t' = t
  · rw [if_pos ht, Option.some_inj] at hd'
    rw [← hd']
    exact saveTabVolume_snd_range st t d u hd
  · rw [if_neg ht] at hd'
    exact (saveTabVolume_cacheInv st t d u h hd).1 t' d' hd'

theorem getVolumeDataForTab_range (st : SysState) (t : ℚ) (u : Option String)
    (h : cacheInv st) :
    volumeInRange (getVolumeDataForTab st t u).1 ∧ cacheInv (getVolumeDataForTab st t u).2 := by
  unfold getVolumeDataForTab
  by_cases h1 : ¬ 0 < t
  · rw [if_pos h1]; exact ⟨default_inRange, h⟩
  rw [if_neg h1]
  cases htab : st.tabVolumeSettings t with
  | some data => exact ⟨h.1 t data htab, h⟩
  | none =>
    cases u with
    | none => exact ⟨default_inRange, h⟩
    | some url =>
      dsimp only
      by_cases h2 : url = ""
      · rw [if_pos h2]; exact ⟨default_inRange, h⟩
      rw [if_neg h2]
      cases hu : st.urlVolumeSettings url with
      | some data =>
        have hdata := h.2 url data hu
        exact ⟨setAndSave_snd_range _ _ _ _ hdata, setAndSave_cacheInv _ _ _ _ h hdata⟩
      | none => exact ⟨default_inRange, h⟩

theorem mergeVolumeData_range (msg : RawMessage) (d : TabVolumeData)
    (hd : volumeInRange d)
    (hv : ¬ (msg.volume ≠ .undefined ∧ ¬ isValidVolume msg.volume))
    (hp : ¬ (msg.previousVolume ≠ .undefined ∧ ¬ isValidVolume msg.previousVolume)) :
    volumeInRange (mergeVolumeData msg d) := by
  obtain ⟨hd1, hd2, hd3, hd4⟩ := hd
  refine ⟨?_, ?_, ?_, ?_⟩ <;> dsimp only [mergeVolumeData, volumeInRange]
  · by_cases hu : msg.volume = .undefined
    · simp only [hu, ne_eq, not_true_eq_false, if_false]
      exact hd1
    · have : isValidVolume msg.volume = true := by
        by_contra hc
        exact hv ⟨hu, by simpa using hc⟩
      rw [if_pos hu]
      exact (isValidVolume_range _ this).1
  · by_cases hu : msg.volume = .undefined
    · simp only [hu, ne_eq, not_true_eq_false, if_false]
      exact hd2
    · have : isValidVolume msg.volume = true := by
        by_contra hc
        exact hv ⟨hu, by simpa using hc⟩
      rw [if_pos hu]
      exact (isValidVolume_range _ this).2
  · by_cases hu : msg.previousVolume = .undefined
    · simp only [hu, ne_eq, not_true_eq_false, if_false]
      exact hd3
    · have : isValidVolume msg.previousVolume = true := by
        by_contra hc
        exact hp ⟨hu, by simpa using hc⟩
      rw [if_pos hu]
      exact (isValidVolume_range _ this).1
  · by_cases hu : msg.previousVolume = .undefined
    · simp only [hu, ne_eq, not_true_eq_false, if_false]
      exact hd4
    · have : isValidVolume msg.previousVolume = true := by
        by_contra hc
        exact hp ⟨hu, by simpa using hc⟩
      rw [if_pos hu]
      exact (isValidVolume_range _ this).2

theorem gatStep_cacheInv (s : SysState) (tab : ChromeTab) (h : cacheInv s) :
    cacheInv (gatStep s tab) := by
  unfold gatStep
  cases tab.id with
  | some tid => exact (getVolumeDataForTab_range s tid tab.url h).2
  | none => exact h

theorem gatFold_cacheInv (l : List ChromeTab) :
    ∀ s, cacheInv s → cacheInv (l.foldl gatStep s) := by
  induction l with
  | nil => intro s h; exact h
  | cons a l ih => intro s h; exact ih _ (gatStep_cacheInv s a h)

theorem handleUpdateTabVolume_cacheInv (st : SysState) (msg : RawMessage) (env : Env)
    (h : cacheInv st) : cacheInv (handleUpdateTabVolume st msg env).state := by
  unfold handleUpdateTabVolume
  by_cases v1 : ¬ isValidTabId msg.tabId
  · rw [if_pos v1]; exact h
  rw [if_neg v1]
  by_cases v2 : msg.volume ≠ .undefined ∧ ¬ isValidVolume msg.volume
  · rw [if_pos v2]; exact h
  rw [if_neg v2]
  by_cases v3 : msg.previousVolume ≠ .undefined ∧ ¬ isValidVolume msg.previousVolume
  · rw [if_pos v3]; exact h
  rw [if_neg v3]
  by_cases v4 : msg.muted ≠ .undefined ∧ ∀ b, msg.muted ≠ .boolean b
  · rw [if_pos v4]; exact h
  rw [if_neg v4]
  cases env.tabGet with
  | error e => exact h
  | ok tab =>
    dsimp only
    have hg := getVolumeDataForTab_range st msg.tabId.toNum tab.url h
    have hmerge := mergeVolumeData_range msg _ hg.1 v2 v3
    have hsave := setAndSave_cacheInv (getVolumeDataForTab st msg.tabId.toNum tab.url).2
      msg.tabId.toNum (mergeVolumeData msg (getVolumeDataForTab st msg.tabId.toNum tab.url).1)
      tab.url hg.2 hmerge
    cases applyVolumeToTab msg.tabId.toNum
        (setAndSave (getVolumeDataForTab st msg.tabId.toNum tab.url).2 msg.tabId.toNum
          (mergeVolumeData msg (getVolumeDataForTab st msg.tabId.toNum tab.url).1) tab.url).2 with
    | some cmd => exact hsave
    | none => exact hsave

theorem handleMessage_cacheInv (selfId : String) (st : SysState) (msg : RawMessage)
    (sender : Sender) (env : Env) (h : cacheInv st) :
    cacheInv (handleMessage selfId st msg sender env).state := by
  unfold handleMessage
  split_ifs with h1 h2 h3 h4 h5 h6 h7
  · exact h
  · exact h
  · cases senderTabId sender with
    | some tid =>
      show cacheInv (handleContentScriptReady st tid env).state
      unfold handleContentScriptReady
      by_cases hv : ¬ 0 < tid
      · rw [if_pos hv]; exact h
      · rw [if_neg hv]; exact h
    | none => exact h
  · exact gatFold_cacheInv _ st h
  · exact handleUpdateTabVolume_cacheInv st msg env h
  · cases senderTabId sender with
    | some tid =>
      show cacheInv (handleGetAudioStatus st tid ((sender.tab.map SenderTab.url).getD none)).state
      unfold handleGetAudioStatus
      by_cases hv : ¬ 0 < tid
      · rw [if_pos hv]; exact h
      · rw [if_neg hv]
        exact (getVolumeDataForTab_range st tid _ h).2
    | none => exact h
  · cases senderTabId sender with
    | some tid =>
      show cacheInv (handleUpdateTabStatus st tid ((sender.tab.map SenderTab.url).getD none)
        msg.hasAudio).state
      unfold handleUpdateTabStatus
      by_cases hv : ¬ 0 < tid
      · rw [if_pos hv]; exact h
      · rw [if_neg hv]
        cases hha : msg.hasAudio with
        | boolean b =>
          have hg := getVolumeDataForTab_range st tid ((sender.tab.map SenderTab.url).getD none) h
          exact setAndSave_cacheInv _ _ _ _ hg.2 hg.1
        | undefined => exact h
        | null => exact h
        | num q => exact h
        | nan => exact h
        | str s => exact h
    | none => exact h
  · exact h

theorem handleAudibleChange_cacheInv (st : SysState) (tabId : ℚ) (aud : Bool)
    (tab : ChromeTab) (h : cacheInv st) :
    cacheInv (handleAudibleChange st tabId aud tab).1 := by
  unfold handleAudibleChange
  cases aud with
  | false => exact h
  | true =>
    dsimp only
    have hg := getVolumeDataForTab_range
      { st with audibleTabs := fun t => if t = tabId then true else st.audibleTabs t }
      tabId tab.url h
    have hsave := setAndSave_cacheInv _ tabId
      { (getVolumeDataForTab
          { st with audibleTabs := fun t => if t = tabId then true else st.audibleTabs t }
          tabId tab.url).1 with hasAudio := true } tab.url hg.2 hg.1
    cases applyVolumeToTab tabId
        (setAndSave (getVolumeDataForTab
            { st with audibleTabs := fun t => if t = tabId then true else st.audibleTabs t }
            tabId tab.url).2 tabId
          { (getVolumeDataForTab
              { st with audibleTabs := fun t => if t = tabId then true else st.audibleTabs t }
              tabId tab.url).1 with hasAudio := true } tab.url).2 with
    | some c => exact hsave
    | none => exact hsave

theorem handleUrlChange_cacheInv (st1 : SysState) (u : Option String) (tab : ChromeTab)
    (h : cacheInv st1) : cacheInv (handleUrlChange st1 u tab).1 := by
  unfold handleUrlChange
  cases u with
  | none => cases tab.id <;> exact h
  | some newUrl =>
    cases tab.id with
    | none => exact h
    | some tid =>
      dsimp only
      by_cases hc : newUrl ≠ "" ∧ tid ≠ 0
      · rw [if_pos hc]
        cases hu : st1.urlVolumeSettings newUrl with
        | some data =>
          refine ⟨?_, h.2⟩
          intro t' d' hd'
          dsimp only at hd'
          by_cases ht : t' = tid
          · rw [if_pos ht, Option.some_inj] at hd'
            rw [← hd']
            exact h.2 newUrl data hu
          · rw [if_neg ht] at hd'
            exact h.1 t' d' hd'
        | none => exact h
      · rw [if_neg hc]; exact h

theorem handleTabUpdated_cacheInv (st : SysState) (tabId : ℚ) (info : UpdateInfo)
    (tab : ChromeTab) (h : cacheInv st) :
    cacheInv (handleTabUpdated st tabId info tab).1 := by
  unfold handleTabUpdated
  by_cases h1 : ¬ 0 < tabId
  · rw [if_pos h1]; exact h
  · rw [if_neg h1]
    dsimp only
    cases info.audible with
    | some aud =>
      exact handleUrlChange_cacheInv _ info.url tab
        (handleAudibleChange_cacheInv st tabId aud tab h)
    | none => exact handleUrlChange_cacheInv _ info.url tab h

theorem handleTabRemoved_cacheInv (st : SysState) (tabId : ℚ) (h : cacheInv st) :
    cacheInv (handleTabRemoved st tabId) := by
  unfold handleTabRemoved
  by_cases h1 : ¬ 0 < tabId
  · rw [if_pos h1]; exact h
  · rw [if_neg h1]
    refine ⟨?_, h.2⟩
    intro t' d' hd'
    dsimp only at hd'
    by_cases ht : t' = tabId
    · rw [if_pos ht] at hd'
      cases hd'
    · rw [if_neg ht] at hd'
      exact h.1 t' d' hd'

theorem reachable_cacheInv (st : SysState) (hr : Reachable st) : cacheInv st := by
  induction hr with
  | init tabItems urlItems tabStore0 urlStore0 => exact hydrate_cacheInv _ _ _ _
  | msg st selfId m sender env _ ih => exact handleMessage_cacheInv selfId st m sender env ih
  | updated st tabId info tab _ ih => exact handleTabUpdated_cacheInv st tabId info tab ih
  | removed st tabId _ ih => exact handleTabRemoved_cacheInv st tabId ih
  | send st tabId c rc now dok _ ih => exact ih
  | sweep st tabId now ok _ ih => exact ih

/-- Claim C6: in every reachable state, every record held in the
tab-identifier mapping or the page-address mapping has `volume` and
`previousVolume` in [0, 100]; startup hydration coerces a malformed
(non-object) stored entry to the default record, and coerces every
stored entry to an in-range record, so hydration never fails. -/
theorem C6_range_invariant :
    (∀ st, Reachable st →
      (∀ t d, st.tabVolumeSettings t = some d → volumeInRange d) ∧
      (∀ u d, st.urlVolumeSettings u = some d → volumeInRange d)) ∧
    validateVolumeData .notObj = getDefaultVolumeData ∧
    (∀ raw, volumeInRange (validateVolumeData raw)) := by
  refine ⟨?_, rfl, validateVolumeData_inRange⟩
  intro st hr
  exact reachable_cacheInv st hr

/-- Witness for C6: the invariant at a concrete hydrated state whose
stored items are partially and fully malformed. -/
theorem C6_range_invariant_witness :
    (∀ t d, (hydrate [(some 5, .obj (.num 3) .nan (.boolean true) .undefined .undefined .undefined)]
        [("https://a.example", .notObj)] (fun _ => none) (fun _ => none)).tabVolumeSettings t
        = some d → volumeInRange d) ∧
    validateVolumeData .notObj = getDefaultVolumeData :=
  ⟨(C6_range_invariant.1 _ (Reachable.init _ _ _ _)).1, C6_range_invariant.2.1⟩

theorem handleContentScriptReady_len (st : SysState) (tid : ℚ) (env : Env) :
    (handleContentScriptReady st tid env).responses.length = 1 := by
  unfold handleContentScriptReady
  by_cases hv : ¬ 0 < tid
  · rw [if_pos hv]; rfl
  · rw [if_neg hv]; rfl

theorem handleUpdateTabVolume_len (st : SysState) (msg : RawMessage) (env : Env) :
    (handleUpdateTabVolume st msg env).responses.length = 1 := by
  unfold handleUpdateTabVolume
  by_cases v1 : ¬ isValidTabId msg.tabId
  · rw [if_pos v1]; rfl
  rw [if_neg v1]
  by_cases v2 : msg.volume ≠ .undefined ∧ ¬ isValidVolume msg.volume
  · rw [if_pos v2]; rfl
  rw [if_neg v2]
  by_cases v3 : msg.previousVolume ≠ .undefined ∧ ¬ isValidVolume msg.previousVolume
  · rw [if_pos v3]; rfl
  rw [if_neg v3]
  by_cases v4 : msg.muted ≠ .undefined ∧ ∀ b, msg.muted ≠ .boolean b
  · rw [if_pos v4]; rfl
  rw [if_neg v4]
  cases env.tabGet with
  | error e => rfl
  | ok tab =>
    dsimp only
    cases applyVolumeToTab msg.tabId.toNum
        (setAndSave (getVolumeDataForTab st msg.tabId.toNum tab.url).2 msg.tabId.toNum
          (mergeVolumeData msg (getVolumeDataForTab st msg.tabId.toNum tab.url).1) tab.url).2 with
    | some cmd => rfl
    | none => rfl

theorem handleGetAudioStatus_len (st : SysState) (tid : ℚ) (u : Option String) :
    (handleGetAudioStatus st tid u).responses.length = 1 := by
  unfold handleGetAudioStatus
  by_cases hv : ¬ 0 < tid
  · rw [if_pos hv]; rfl
  · rw [if_neg hv]; rfl

theorem handleUpdateTabStatus_len (st : SysState) (tid : ℚ) (u : Option String)
    (hasAudio : JSVal) :
    (handleUpdateTabStatus st tid u hasAudio).responses.length = 1 := by
  unfold handleUpdateTabStatus
  by_cases hv : ¬ 0 < tid
  · rw [if_pos hv]; rfl
  · rw [if_neg hv]
    cases hasAudio <;> rfl

/-- Claim C3 as stated is false: a structurally malformed message (no
`action` field) and a message from an unauthorized sender each produce
zero responses, not exactly one. -/
theorem C3_counterexample :
    (handleMessage "self" emptyState
      { isObj := true, action := .undefined, tabId := .num 42, volume := .num 30,
        muted := .undefined, previousVolume := .undefined, hasAudio := .undefined }
      plainSender plainEnv).responses = [] ∧
    (handleMessage "self" emptyState (updateMsg (.num 30) .undefined .undefined)
      { id := some "attacker", tab := none } plainEnv).responses = [] := by
  constructor
  · rfl
  · rfl

/-- Claim C3, amended: messages from an unauthorized sender or with a
malformed structure (missing/falsy `action`) are dropped with no
response; every other inbound message produces exactly one response —
never two, never none. -/
theorem C3_amended (selfId : String) (st : SysState) (msg : RawMessage) (sender : Sender)
    (env : Env) :
    (unauthorizedSender selfId sender = true ∨ invalidStructure msg = true →
      (handleMessage selfId st msg sender env).responses = []) ∧
    (unauthorizedSender selfId sender = false → invalidStructure msg = false →
      (handleMessage selfId st msg sender env).responses.length = 1) := by
  constructor
  · intro hcase
    unfold handleMessage
    by_cases ha : unauthorizedSender selfId sender = true
    · rw [if_pos ha]
    · have hi : invalidStructure msg = true := by
        rcases hcase with hc | hc
        · exact absurd hc ha
        · exact hc
      rw [if_neg ha, if_pos hi]
  · intro ha hi
    unfold handleMessage
    rw [if_neg (by simp [ha]), if_neg (by simp [hi])]
    by_cases a1 : msg.action = .str "contentScriptReady"
    · rw [if_pos a1]
      cases senderTabId sender with
      | some tid => exact handleContentScriptReady_len st tid env
      | none => rfl
    rw [if_neg a1]
    by_cases a2 : msg.action = .str "getAudibleTabs"
    · rw [if_pos a2]
      rfl
    rw [if_neg a2]
    by_cases a3 : msg.action = .str "updateTabVolume"
    · rw [if_pos a3]
      exact handleUpdateTabVolume_len st msg env
    rw [if_neg a3]
    by_cases a4 : msg.action = .str "getAudioStatus"
    · rw [if_pos a4]
      cases senderTabId sender with
      | some tid => exact handleGetAudioStatus_len st tid _
      | none => rfl
    rw [if_neg a4]
    by_cases a5 : msg.action = .str "updateTabStatus"
    · rw [if_pos a5]
      cases senderTabId sender with
      | some tid => exact handleUpdateTabStatus_len st tid _ _
      | none => rfl
    rw [if_neg a5]
    rfl

/-- Witness for the amended C3: zero responses for a concrete malformed
message, one response for a concrete well-formed one. -/
theorem C3_amended_witness :
    (handleMessage "self" emptyState
      { isObj := false, action := .str "updateTabVolume", tabId := .num 42, volume := .num 30,
        muted := .undefined, previousVolume := .undefined, hasAudio := .undefined }
      plainSender plainEnv).responses = [] ∧
    (handleMessage "self" emptyState (updateMsg (.num 30) .undefined .undefined)
      plainSender plainEnv).responses.length = 1 :=
  ⟨(C3_amended "self" emptyState _ plainSender plainEnv).1 (Or.inr (by decide)),
    (C3_amended "self" emptyState _ plainSender plainEnv).2 (by decide) (by decide)⟩

/-- Claim C4: a recognized action with missing or malformed required
fields yields a single `{success:false, error}` response and leaves both
in-memory mappings and both durable key families unchanged; an
unrecognized action string yields `{success:false, error:"Unknown
action"}` and also leaves them unchanged. -/
theorem C4_router_validation (selfId : String) (st : SysState) (msg : RawMessage)
    (sender : Sender) (env : Env)
    (hA : unauthorizedSender selfId sender = false)
    (hS : invalidStructure msg = false) :
    (msg.action = .str "contentScriptReady" → badTabSender sender →
      (∃ e, (handleMessage selfId st msg sender env).responses = [.err e]) ∧
      sameVolumeState st (handleMessage selfId st msg sender env).state) ∧
    (msg.action = .str "updateTabVolume" → badUpdateFields msg →
      (∃ e, (handleMessage selfId st msg sender env).responses = [.err e]) ∧
      sameVolumeState st (handleMessage selfId st msg sender env).state) ∧
    (msg.action = .str "getAudioStatus" → badTabSender sender →
      (∃ e, (handleMessage selfId st msg sender env).responses = [.err e]) ∧
      sameVolumeState st (handleMessage selfId st msg sender env).state) ∧
    (msg.action = .str "updateTabStatus" →
      (badTabSender sender ∨ ∀ b, msg.hasAudio ≠ .boolean b) →
      (∃ e, (handleMessage selfId st msg sender env).responses = [.err e]) ∧
      sameVolumeState st (handleMessage selfId st msg sender env).state) ∧
    (∀ a, msg.action = .str a → a ∉ recognizedActions →
      (handleMessage selfId st msg sender env).responses = [.err "Unknown action"] ∧
      sameVolumeState st (handleMessage selfId st msg sender env).state) := by
  refine ⟨?_, ?_, ?_, ?_, ?_⟩
  · intro hAct hbad
    unfold handleMessage
    rw [if_neg (by simp [hA]), if_neg (by simp [hS]), hAct, if_pos rfl]
    rcases hbad with hnone | ⟨t, hsome, ht⟩
    · rw [hnone]
      exact ⟨⟨"Unknown action", rfl⟩, rfl, rfl, rfl, rfl⟩
    · rw [hsome]
      show (∃ e, (handleContentScriptReady st t env).responses = [.err e]) ∧
        sameVolumeState st (handleContentScriptReady st t env).state
      unfold handleContentScriptReady
      rw [if_pos ht]
      exact ⟨⟨"Invalid tabId", rfl⟩, rfl, rfl, rfl, rfl⟩
  · intro hAct hbad
    unfold handleMessage
    rw [if_neg (by simp [hA]), if_neg (by simp [hS]), hAct,
      if_neg (by simp), if_neg (by simp), if_pos rfl]
    unfold handleUpdateTabVolume
    by_cases v1 : ¬ isValidTabId msg.tabId
    · rw [if_pos v1]
      exact ⟨⟨"Invalid tabId", rfl⟩, rfl, rfl, rfl, rfl⟩
    rw [if_neg v1]
    by_cases v2 : msg.volume ≠ .undefined ∧ ¬ isValidVolume msg.volume
    · rw [if_pos v2]
      exact ⟨⟨"Invalid volume", rfl⟩, rfl, rfl, rfl, rfl⟩
    rw [if_neg v2]
    by_cases v3 : msg.previousVolume ≠ .undefined ∧ ¬ isValidVolume msg.previousVolume
    · rw [if_pos v3]
      exact ⟨⟨"Invalid previousVolume", rfl⟩, rfl, rfl, rfl, rfl⟩
    rw [if_neg v3]
    by_cases v4 : msg.muted ≠ .undefined ∧ ∀ b, msg.muted ≠ .boolean b
    · rw [if_pos v4]
      exact ⟨⟨"Invalid muted state", rfl⟩, rfl, rfl, rfl, rfl⟩
    rw [if_neg v4]
    exfalso
    rcases hbad with hb | hb | hb | hb
    · exact v1 hb
    · exact v2 hb
    · exact v3 hb
    · exact v4 hb
  · intro hAct hbad
    unfold handleMessage
    rw [if_neg (by simp [hA]), if_neg (by simp [hS]), hAct,
      if_neg (by simp), if_neg (by simp), if_neg (by simp), if_pos rfl]
    rcases hbad with hnone | ⟨t, hsome, ht⟩
    · rw [hnone]
      exact ⟨⟨"Unknown action", rfl⟩, rfl, rfl, rfl, rfl⟩
    · rw [hsome]
      show (∃ e, (handleGetAudioStatus st t _).responses = [.err e]) ∧
        sameVolumeState st (handleGetAudioStatus st t _).state
      unfold handleGetAudioStatus
      rw [if_pos ht]
      exact ⟨⟨"Invalid tabId", rfl⟩, rfl, rfl, rfl, rfl⟩
  · intro hAct hbad
    unfold handleMessage
    rw [if_neg (by simp [hA]), if_neg (by simp [hS]), hAct,
      if_neg (by simp), if_neg (by simp), if_neg (by simp), if_neg (by simp), if_pos rfl]
    rcases hbad with (hnone | ⟨t, hsome, ht⟩) | hb
    · rw [hnone]
      exact ⟨⟨"Unknown action", rfl⟩, rfl, rfl, rfl, rfl⟩
    · rw [hsome]
      show (∃ e, (handleUpdateTabStatus st t _ msg.hasAudio).responses = [.err e]) ∧
        sameVolumeState st (handleUpdateTabStatus st t _ msg.hasAudio).state
      unfold handleUpdateTabStatus
      rw [if_pos ht]
      exact ⟨⟨"Invalid tabId", rfl⟩, rfl, rfl, rfl, rfl⟩
    · cases hst : senderTabId sender with
      | none =>
        exact ⟨⟨"Unknown action", rfl⟩, rfl, rfl, rfl, rfl⟩
      | some t =>
        show (∃ e, (handleUpdateTabStatus st t _ msg.hasAudio).responses = [.err e]) ∧
          sameVolumeState st (handleUpdateTabStatus st t _ msg.hasAudio).state
        unfold handleUpdateTabStatus
        by_cases ht : ¬ 0 < t
        · rw [if_pos ht]
          exact ⟨⟨"Invalid tabId", rfl⟩, rfl, rfl, rfl, rfl⟩
        · rw [if_neg ht]
          cases hha : msg.hasAudio with
          | boolean b => exact absurd rfl (hha ▸ hb b)
          | undefined => exact ⟨⟨"Invalid hasAudio value", rfl⟩, rfl, rfl, rfl, rfl⟩
          | null => exact ⟨⟨"Invalid hasAudio value", rfl⟩, rfl, rfl, rfl, rfl⟩
          | num q => exact ⟨⟨"Invalid hasAudio value", rfl⟩, rfl, rfl, rfl, rfl⟩
          | nan => exact ⟨⟨"Invalid hasAudio value", rfl⟩, rfl, rfl, rfl, rfl⟩
          | str s => exact ⟨⟨"Invalid hasAudio value", rfl⟩, rfl, rfl, rfl, rfl⟩
  · intro a hAct hnot
    simp only [recognizedActions, List.mem_cons, List.mem_singleton, not_or,
      List.not_mem_nil, or_false] at hnot
    unfold handleMessage
    rw [if_neg (by simp [hA]), if_neg (by simp [hS]), hAct,
      if_neg (by simp only [JSVal.str.injEq]; exact hnot.1),
      if_neg (by simp only [JSVal.str.injEq]; exact hnot.2.1),
      if_neg (by simp only [JSVal.str.injEq]; exact hnot.2.2.1),
      if_neg (by simp only [JSVal.str.injEq]; exact hnot.2.2.2.1),
      if_neg (by simp only [JSVal.str.injEq]; exact hnot.2.2.2.2)]
    exact ⟨rfl, rfl, rfl, rfl, rfl⟩

/-- Witness for C4: a concrete rejected `updateTabVolume` with an
out-of-range volume, and a concrete unknown action. -/
theorem C4_router_validation_witness :
    ((∃ e, (handleMessage "self" emptyState (updateMsg (.num 200) .undefined .undefined)
        plainSender plainEnv).responses = [.err e]) ∧
      sameVolumeState emptyState
        (handleMessage "self" emptyState (updateMsg (.num 200) .undefined .undefined)
          plainSender plainEnv).state) ∧
    ((handleMessage "self" emptyState
        { isObj := true, action := .str "someOtherAction", tabId := .undefined,
          volume := .undefined, muted := .undefined, previousVolume := .undefined,
          hasAudio := .undefined } plainSender plainEnv).responses =
      [.err "Unknown action"]) :=
  ⟨(C4_router_validation "self" emptyState (updateMsg (.num 200) .undefined .undefined)
      plainSender plainEnv (by decide) (by decide)).2.1 rfl
      (Or.inr (Or.inl ⟨by decide, by decide⟩)),
    ((C4_router_validation "self" emptyState
      { isObj := true, action := .str "someOtherAction", tabId := .undefined,
        volume := .undefined, muted := .undefined, previousVolume := .undefined,
        hasAudio := .undefined } plainSender plainEnv (by decide) (by decide)).2.2.2.2
      "someOtherAction" rfl (by decide)).1⟩

theorem saveTabVolume_snd_volume (st : SysState) (t : ℚ) (d : TabVolumeData)
    (u : Option String) : (saveTabVolume st t d u).2.volume = d.volume := by
  unfold saveTabVolume
  by_cases h1 : ¬ 0 < t
  · rw [if_pos h1]
  rw [if_neg h1]
  cases u with
  | none => rfl
  | some url =>
    dsimp only
    by_cases h2 : url = ""
    · rw [if_pos h2]
    · rw [if_neg h2]

theorem saveTabVolume_snd_muted (st : SysState) (t : ℚ) (d : TabVolumeData)
    (u : Option String) : (saveTabVolume st t d u).2.muted = d.muted := by
  unfold saveTabVolume
  by_cases h1 : ¬ 0 < t
  · rw [if_pos h1]
  rw [if_neg h1]
  cases u with
  | none => rfl
  | some url =>
    dsimp only
    by_cases h2 : url = ""
    · rw [if_pos h2]
    · rw [if_neg h2]

theorem saveTabVolume_snd_previousVolume (st : SysState) (t : ℚ) (d : TabVolumeData)
    (u : Option String) : (saveTabVolume st t d u).2.previousVolume = d.previousVolume := by
  unfold saveTabVolume
  by_cases h1 : ¬ 0 < t
  · rw [if_pos h1]
  rw [if_neg h1]
  cases u with
  | none => rfl
  | some url =>
    dsimp only
    by_cases h2 : url = ""
    · rw [if_pos h2]
    · rw [if_neg h2]

theorem saveTabVolume_snd_hasAudio (st : SysState) (t : ℚ) (d : TabVolumeData)
    (u : Option String) : (saveTabVolume st t d u).2.hasAudio = d.hasAudio := by
  unfold saveTabVolume
  by_cases h1 : ¬ 0 < t
  · rw [if_pos h1]
  rw [if_neg h1]
  cases u with
  | none => rfl
  | some url =>
    dsimp only
    by_cases h2 : url = ""
    · rw [if_pos h2]
    · rw [if_neg h2]

theorem saveTabVolume_snd_isPlaying (st : SysState) (t : ℚ) (d : TabVolumeData)
    (u : Option String) : (saveTabVolume st t d u).2.isPlaying = d.isPlaying := by
  unfold saveTabVolume
  by_cases h1 : ¬ 0 < t
  · rw [if_pos h1]
  rw [if_neg h1]
  cases u with
  | none => rfl
  | some url =>
    dsimp only
    by_cases h2 : url = ""
    · rw [if_pos h2]
    · rw [if_neg h2]

theorem saveTabVolume_snd_tabUrl (st : SysState) (t : ℚ) (d : TabVolumeData)
    (u : Option String) (h1 : 0 < t) :
    (saveTabVolume st t d u).2.tabUrl =
      (match u with
        | some url => if url = "" then d.tabUrl else some url
        | none => d.tabUrl) := by
  unfold saveTabVolume
  rw [if_neg (by simpa using h1)]
  cases u with
  | none => rfl
  | some url =>
    dsimp only
    by_cases h2 : url = ""
    · rw [if_pos h2, if_pos h2]
    · rw [if_neg h2, if_neg h2]

theorem setAndSave_tabMap_self (st : SysState) (t : ℚ) (d : TabVolumeData)
    (u : Option String) :
    (setAndSave st t d u).1.tabVolumeSettings t = some (setAndSave st t d u).2 := by
  unfold setAndSave
  dsimp only
  rw [if_pos rfl]

theorem saveTabVolume_tabStore_self (st : SysState) (t : ℚ) (d : TabVolumeData)
    (u : Option String) (h1 : 0 < t) :
    (saveTabVolume st t d u).1.tabStore t = some d := by
  unfold saveTabVolume
  rw [if_neg (by simpa using h1)]
  cases u with
  | none => dsimp only; rw [if_pos rfl]
  | some url =>
    dsimp only
    by_cases h2 : url = ""
    · rw [if_pos h2]
      dsimp only
      rw [if_pos rfl]
    · rw [if_neg h2]
      dsimp only
      rw [if_pos rfl]

theorem setAndSave_tabStore_self (st : SysState) (t : ℚ) (d : TabVolumeData)
    (u : Option String) (h1 : 0 < t) :
    (setAndSave st t d u).1.tabStore t = some d := by
  unfold setAndSave
  exact saveTabVolume_tabStore_self st t d u h1

theorem handleUpdateTabVolume_success (st : SysState) (msg : RawMessage) (env : Env)
    (tab : ChromeTab)
    (v1 : isValidTabId msg.tabId = true)
    (v2 : ¬ (msg.volume ≠ .undefined ∧ ¬ isValidVolume msg.volume))
    (v3 : ¬ (msg.previousVolume ≠ .undefined ∧ ¬ isValidVolume msg.previousVolume))
    (v4 : ¬ (msg.muted ≠ .undefined ∧ ∀ b, msg.muted ≠ .boolean b))
    (hGet : env.tabGet = .ok tab) :
    handleUpdateTabVolume st msg env =
      (match applyVolumeToTab msg.tabId.toNum
          (setAndSave (getVolumeDataForTab st msg.tabId.toNum tab.url).2 msg.tabId.toNum
            (mergeVolumeData msg (getVolumeDataForTab st msg.tabId.toNum tab.url).1)
            tab.url).2 with
        | some cmd =>
          ⟨{ (setAndSave (getVolumeDataForTab st msg.tabId.toNum tab.url).2 msg.tabId.toNum
                (mergeVolumeData msg (getVolumeDataForTab st msg.tabId.toNum tab.url).1)
                tab.url).1 with
              messageQueues :=
                (sendMessageToTab
                  (setAndSave (getVolumeDataForTab st msg.tabId.toNum tab.url).2
                    msg.tabId.toNum
                    (mergeVolumeData msg (getVolumeDataForTab st msg.tabId.toNum tab.url).1)
                    tab.url).1.messageQueues
                  msg.tabId.toNum cmd 0 env.now env.deliver).1 },
            [.ok], [(msg.tabId.toNum, cmd)]⟩
        | none =>
          ⟨(setAndSave (getVolumeDataForTab st msg.tabId.toNum tab.url).2 msg.tabId.toNum
              (mergeVolumeData msg (getVolumeDataForTab st msg.tabId.toNum tab.url).1)
              tab.url).1, [.ok], []⟩) := by
  unfold handleUpdateTabVolume
  rw [if_neg (by simp [v1]), if_neg v2, if_neg v3, if_neg v4, hGet]

theorem setAndSave_snd_volume (st : SysState) (t : ℚ) (d : TabVolumeData)
    (u : Option String) : (setAndSave st t d u).2.volume = d.volume :=
  saveTabVolume_snd_volume st t d u

theorem setAndSave_snd_muted (st : SysState) (t : ℚ) (d : TabVolumeData)
    (u : Option String) : (setAndSave st t d u).2.muted = d.muted :=
  saveTabVolume_snd_muted st t d u

theorem setAndSave_snd_previousVolume (st : SysState) (t : ℚ) (d : TabVolumeData)
    (u : Option String) : (setAndSave st t d u).2.previousVolume = d.previousVolume :=
  saveTabVolume_snd_previousVolume st t d u

theorem setAndSave_snd_hasAudio (st : SysState) (t : ℚ) (d : TabVolumeData)
    (u : Option String) : (setAndSave st t d u).2.hasAudio = d.hasAudio :=
  saveTabVolume_snd_hasAudio st t d u

theorem setAndSave_snd_isPlaying (st : SysState) (t : ℚ) (d : TabVolumeData)
    (u : Option String) : (setAndSave st t d u).2.isPlaying = d.isPlaying :=
  saveTabVolume_snd_isPlaying st t d u

theorem setAndSave_snd_tabUrl (st : SysState) (t : ℚ) (d : TabVolumeData)
    (u : Option String) (h1 : 0 < t) :
    (setAndSave st t d u).2.tabUrl =
      (match u with
        | some url => if url = "" then d.tabUrl else some url
        | none => d.tabUrl) :=
  saveTabVolume_snd_tabUrl st t d u h1

theorem applyVolumeToTab_pos (t : ℚ) (d : TabVolumeData) (h : 0 < t) :
    applyVolumeToTab t d =
      some { action := if d.muted then "toggleMute" else "setVolume"
             volume := d.volume, muted := d.muted, previousVolume := d.previousVolume } := by
  unfold applyVolumeToTab
  rw [if_pos h]

/-- Claim C1 as stated is false: with a prior unmuted record
`{volume 50, previousVolume 50, muted false}` for tab 42, the request
`updateTabVolume {tabId 42, volume 0}` (no `muted` field) stores
`muted = false` (not `true`) and delivers `setVolume` (not
`toggleMute`). -/
theorem C1_counterexample :
    ((stateTab42 ⟨50, 50, false, true, none, none⟩).tabVolumeSettings 42 =
      some ⟨50, 50, false, true, none, none⟩) ∧
    (∃ d, (handleMessage "self" (stateTab42 ⟨50, 50, false, true, none, none⟩)
        (updateMsg (.num 0) .undefined .undefined) plainSender plainEnv).state.tabVolumeSettings 42
        = some d ∧ d.muted = false) ∧
    (handleMessage "self" (stateTab42 ⟨50, 50, false, true, none, none⟩)
        (updateMsg (.num 0) .undefined .undefined) plainSender plainEnv).sends =
      [(42, ⟨"setVolume", 0, false, 50⟩)] := by
  refine ⟨by decide, ⟨⟨0, 50, false, true, none, none⟩, by decide, rfl⟩, by decide⟩

/-- Claim C1, amended: for an `updateTabVolume` request with a valid
tabId and `volume:0` but no `muted` and no `previousVolume` field, the
stored record has volume 0 while `muted` and `previousVolume` retain
their prior stored values, and the delivered command is selected by the
retained muted flag — `toggleMute` only if the record was already muted,
else `setVolume` — carrying volume 0, the retained muted flag and the
retained previousVolume. -/
theorem C1_amended (selfId : String) (st : SysState) (msg : RawMessage) (sender : Sender)
    (env : Env) (t : ℚ) (tab : ChromeTab)
    (hA : unauthorizedSender selfId sender = false)
    (hObj : msg.isObj = true)
    (hAct : msg.action = .str "updateTabVolume")
    (hTab : msg.tabId = .num t) (ht : 0 < t)
    (hVol : msg.volume = .num 0)
    (hMut : msg.muted = .undefined)
    (hPrev : msg.previousVolume = .undefined)
    (hGet : env.tabGet = .ok tab) :
    (handleMessage selfId st msg sender env).responses = [.ok] ∧
    (∃ d, (handleMessage selfId st msg sender env).state.tabVolumeSettings t = some d ∧
      d.volume = 0 ∧
      d.muted = (getVolumeDataForTab st t tab.url).1.muted ∧
      d.previousVolume = (getVolumeDataForTab st t tab.url).1.previousVolume) ∧
    (handleMessage selfId st msg sender env).sends =
      [(t, { action := if (getVolumeDataForTab st t tab.url).1.muted then "toggleMute"
              else "setVolume"
             volume := 0
             muted := (getVolumeDataForTab st t tab.url).1.muted
             previousVolume := (getVolumeDataForTab st t tab.url).1.previousVolume })] := by
  have hS : invalidStructure msg = false := by
    simp [invalidStructure, hObj, hAct, JSVal.truthy]
  have hMsg : handleMessage selfId st msg sender env = handleUpdateTabVolume st msg env := by
    unfold handleMessage
    rw [if_neg (by simp [hA]), if_neg (by simp [hS]), hAct,
      if_neg (by simp), if_neg (by simp), if_pos rfl]
  have v1 : isValidTabId msg.tabId = true := by
    rw [hTab]
    simp [isValidTabId, ht]
  have v2 : ¬ (msg.volume ≠ .undefined ∧ ¬ isValidVolume msg.volume) := by
    rw [hVol]
    intro hcon
    exact hcon.2 (by decide)
  have v3 : ¬ (msg.previousVolume ≠ .undefined ∧ ¬ isValidVolume msg.previousVolume) := by
    rw [hPrev]
    intro hcon
    exact hcon.1 rfl
  have v4 : ¬ (msg.muted ≠ .undefined ∧ ∀ b, msg.muted ≠ .boolean b) := by
    rw [hMut]
    intro hcon
    exact hcon.1 rfl
  rw [hMsg, handleUpdateTabVolume_success st msg env tab v1 v2 v3 v4 hGet, hTab]
  have htn : (JSVal.num t).toNum = t := rfl
  rw [htn, applyVolumeToTab_pos _ _ ht]
  dsimp only
  have hvol : (setAndSave (getVolumeDataForTab st t tab.url).2 t
      (mergeVolumeData msg (getVolumeDataForTab st t tab.url).1) tab.url).2.volume = 0 := by
    rw [setAndSave_snd_volume]
    simp [mergeVolumeData, hVol, JSVal.toNum]
  have hmut : (setAndSave (getVolumeDataForTab st t tab.url).2 t
      (mergeVolumeData msg (getVolumeDataForTab st t tab.url).1) tab.url).2.muted =
      (getVolumeDataForTab st t tab.url).1.muted := by
    rw [setAndSave_snd_muted]
    simp [mergeVolumeData, hMut]
  have hprev : (setAndSave (getVolumeDataForTab st t tab.url).2 t
      (mergeVolumeData msg (getVolumeDataForTab st t tab.url).1) tab.url).2.previousVolume =
      (getVolumeDataForTab st t tab.url).1.previousVolume := by
    rw [setAndSave_snd_previousVolume]
    simp [mergeVolumeData, hPrev]
  refine ⟨rfl, ⟨_, setAndSave_tabMap_self _ _ _ _, hvol, hmut, hprev⟩, ?_⟩
  rw [hvol, hmut, hprev]

/-- Claim C2 as stated is false: with a prior record whose `hasAudio`
is `false`, a request providing only `volume` stores `hasAudio = true` —
the absent `hasAudio` field does not retain its prior value. -/
theorem C2_counterexample :
    ((stateTab42 ⟨50, 50, false, false, none, none⟩).tabVolumeSettings 42 =
      some ⟨50, 50, false, false, none, none⟩) ∧
    (∃ d, (handleMessage "self" (stateTab42 ⟨50, 50, false, false, none, none⟩)
        (updateMsg (.num 30) .undefined .undefined) plainSender plainEnv).state.tabVolumeSettings 42
        = some d ∧ d.hasAudio = true) := by
  refine ⟨by decide, ⟨⟨30, 50, false, true, none, none⟩, by decide, rfl⟩⟩

/-- Claim C2, amended: for every successfully handled `updateTabVolume`
request, `volume`, `muted`, `previousVolume` retain their prior values
when absent from the request (and `isPlaying` always does), but
`hasAudio` is unconditionally set to `true` rather than retained, and
`tabUrl` is refreshed to the tab's current URL when one is available;
the same merged record is persisted under the tab-scoped key. -/
theorem C2_amended (selfId : String) (st : SysState) (msg : RawMessage) (sender : Sender)
    (env : Env) (t : ℚ) (tab : ChromeTab)
    (hA : unauthorizedSender selfId sender = false)
    (hObj : msg.isObj = true)
    (hAct : msg.action = .str "updateTabVolume")
    (hTab : msg.tabId = .num t) (ht : 0 < t)
    (hVolOk : msg.volume ≠ .undefined → isValidVolume msg.volume = true)
    (hPrevOk : msg.previousVolume ≠ .undefined → isValidVolume msg.previousVolume = true)
    (hMutOk : msg.muted ≠ .undefined → ∃ b, msg.muted = .boolean b)
    (hGet : env.tabGet = .ok tab) :
    ∃ d, (handleMessage selfId st msg sender env).state.tabVolumeSettings t = some d ∧
      d.volume = (if msg.volume ≠ .undefined then msg.volume.toNum
        else (getVolumeDataForTab st t tab.url).1.volume) ∧
      d.muted = (if msg.muted ≠ .undefined then msg.muted.toBool
        else (getVolumeDataForTab st t tab.url).1.muted) ∧
      d.previousVolume = (if msg.previousVolume ≠ .undefined then msg.previousVolume.toNum
        else (getVolumeDataForTab st t tab.url).1.previousVolume) ∧
      d.isPlaying = (getVolumeDataForTab st t tab.url).1.isPlaying ∧
      d.hasAudio = true ∧
      d.tabUrl = (match tab.url with
        | some url => if url = "" then (getVolumeDataForTab st t tab.url).1.tabUrl else some url
        | none => (getVolumeDataForTab st t tab.url).1.tabUrl) ∧
      (handleMessage selfId st msg sender env).state.tabStore t =
        some (mergeVolumeData msg (getVolumeDataForTab st t tab.url).1) := by
  have hS : invalidStructure msg = false := by
    simp [invalidStructure, hObj, hAct, JSVal.truthy]
  have hMsg : handleMessage selfId st msg sender env = handleUpdateTabVolume st msg env := by
    unfold handleMessage
    rw [if_neg (by simp [hA]), if_neg (by simp [hS]), hAct,
      if_neg (by simp), if_neg (by simp), if_pos rfl]
  have v1 : isValidTabId msg.tabId = true := by
    rw [hTab]
    simp [isValidTabId, ht]
  have v2 : ¬ (msg.volume ≠ .undefined ∧ ¬ isValidVolume msg.volume) := by
    intro hcon
    exact hcon.2 (hVolOk hcon.1)
  have v3 : ¬ (msg.previousVolume ≠ .undefined ∧ ¬ isValidVolume msg.previousVolume) := by
    intro hcon
    exact hcon.2 (hPrevOk hcon.1)
  have v4 : ¬ (msg.muted ≠ .undefined ∧ ∀ b, msg.muted ≠ .boolean b) := by
    intro hcon
    obtain ⟨b, hb⟩ := hMutOk hcon.1
    exact hcon.2 b hb
  rw [hMsg, handleUpdateTabVolume_success st msg env tab v1 v2 v3 v4 hGet, hTab]
  have htn : (JSVal.num t).toNum = t := rfl
  rw [htn, applyVolumeToTab_pos _ _ ht]
  dsimp only
  refine ⟨_, setAndSave_tabMap_self _ _ _ _, ?_, ?_, ?_, ?_, ?_, ?_, ?_⟩
  · rw [setAndSave_snd_volume]; rfl
  · rw [setAndSave_snd_muted]; rfl
  · rw [setAndSave_snd_previousVolume]; rfl
  · rw [setAndSave_snd_isPlaying]; rfl
  · rw [setAndSave_snd_hasAudio]; rfl
  · rw [setAndSave_snd_tabUrl _ _ _ _ ht]
    have hmu : (mergeVolumeData msg (getVolumeDataForTab st t tab.url).1).tabUrl =
        (getVolumeDataForTab st t tab.url).1.tabUrl := rfl
    rw [hmu]
  · exact setAndSave_tabStore_self _ _ _ _ ht

/-- Witness for the amended C1 at a concrete unmuted record. -/
theorem C1_amended_witness :
    (handleMessage "self" (stateTab42 ⟨50, 50, false, true, none, none⟩)
        (updateMsg (.num 0) .undefined .undefined) plainSender plainEnv).responses = [.ok] ∧
    (∃ d, (handleMessage "self" (stateTab42 ⟨50, 50, false, true, none, none⟩)
        (updateMsg (.num 0) .undefined .undefined) plainSender plainEnv).state.tabVolumeSettings 42
        = some d ∧ d.volume = 0 ∧ d.muted = false ∧ d.previousVolume = 50) ∧
    (handleMessage "self" (stateTab42 ⟨50, 50, false, true, none, none⟩)
        (updateMsg (.num 0) .undefined .undefined) plainSender plainEnv).sends =
      [(42, ⟨"setVolume", 0, false, 50⟩)] :=
  C1_amended "self" (stateTab42 ⟨50, 50, false, true, none, none⟩)
    (updateMsg (.num 0) .undefined .undefined) plainSender plainEnv 42 ⟨none, none, false⟩
    rfl rfl rfl rfl (by norm_num) rfl rfl rfl rfl

/-- Witness for the amended C2 at a concrete record with `hasAudio`
false and a request providing only `volume`. -/
theorem C2_amended_witness :
    ∃ d, (handleMessage "self" (stateTab42 ⟨50, 50, false, false, none, none⟩)
        (updateMsg (.num 30) .undefined .undefined) plainSender plainEnv).state.tabVolumeSettings 42
        = some d ∧
      d.volume = 30 ∧ d.muted = false ∧ d.previousVolume = 50 ∧
      d.isPlaying = none ∧ d.hasAudio = true ∧ d.tabUrl = none ∧
      (handleMessage "self" (stateTab42 ⟨50, 50, false, false, none, none⟩)
        (updateMsg (.num 30) .undefined .undefined) plainSender plainEnv).state.tabStore 42 =
        some ⟨30, 50, false, true, none, none⟩ :=
  C2_amended "self" (stateTab42 ⟨50, 50, false, false, none, none⟩)
    (updateMsg (.num 30) .undefined .undefined) plainSender plainEnv 42 ⟨none, none, false⟩
    rfl rfl rfl rfl (by norm_num) (fun _ => by decide) (fun h => absurd rfl h)
    (fun h => absurd rfl h) rfl

/-- Claim C5 as stated is false at the per-request level: a request
carrying an invalid volume (200) together with a valid `muted:true`
against a prior unmuted record is rejected as a whole — the valid
`muted` field does not take effect. -/
theorem C5_counterexample :
    ((stateTab42 ⟨50, 50, false, true, none, none⟩).tabVolumeSettings 42 =
      some ⟨50, 50, false, true, none, none⟩) ∧
    (handleMessage "self" (stateTab42 ⟨50, 50, false, true, none, none⟩)
        (updateMsg (.num 200) (.boolean true) .undefined) plainSender plainEnv).responses =
      [.err "Invalid volume"] ∧
    (handleMessage "self" (stateTab42 ⟨50, 50, false, true, none, none⟩)
        (updateMsg (.num 200) (.boolean true) .undefined)
        plainSender plainEnv).state.tabVolumeSettings 42 =
      some ⟨50, 50, false, true, none, none⟩ := by
  exact ⟨by decide, by decide, by decide⟩

/-- Claim C5, amended: a volume value is accepted iff it is numeric and
in [0, 100]; an update request with an invalid volume leaves the whole
state unchanged (so the stored volume is unchanged) and is answered with
an error — an invalid field fails the whole request rather than being
individually retained; only startup hydration replaces invalid fields
individually (by defaults) while keeping valid fields of the same
record. -/
theorem C5_amended (v0 : JSVal) (st : SysState) (msg : RawMessage) (env : Env)
    (valid : isValidTabId msg.tabId = true)
    (hne : msg.volume ≠ .undefined)
    (hbad : isValidVolume msg.volume = false) :
    (isValidVolume v0 = true ↔ ∃ q, v0 = .num q ∧ 0 ≤ q ∧ q ≤ 100) ∧
    ((handleUpdateTabVolume st msg env).responses = [.err "Invalid volume"] ∧
      (handleUpdateTabVolume st msg env).state = st) ∧
    (∀ v pv m ha ip u,
      (isValidVolume v = false →
        (validateVolumeData (.obj v pv m ha ip u)).volume = getDefaultVolumeData.volume) ∧
      (isValidVolume v = true →
        (validateVolumeData (.obj v pv m ha ip u)).volume = v.toNum) ∧
      (∀ b, m = .boolean b → (validateVolumeData (.obj v pv m ha ip u)).muted = b)) := by
  refine ⟨?_, ?_, ?_⟩
  · cases v0 with
    | num q =>
      simp only [isValidVolume, decide_eq_true_eq, JSVal.num.injEq]
      constructor
      · intro h
        exact ⟨q, rfl, h.1, h.2⟩
      · rintro ⟨q', hq, h1, h2⟩
        rw [hq]
        exact ⟨h1, h2⟩
    | undefined => simp [isValidVolume]
    | null => simp [isValidVolume]
    | nan => simp [isValidVolume]
    | boolean b => simp [isValidVolume]
    | str s => simp [isValidVolume]
  · unfold handleUpdateTabVolume
    rw [if_neg (by simp [valid]), if_pos ⟨hne, by simp [hbad]⟩]
    exact ⟨rfl, rfl⟩
  · intro v pv m ha ip u
    refine ⟨?_, ?_, ?_⟩
    · intro hv
      show (if isValidVolume v then v.toNum else getDefaultVolumeData.volume) = _
      rw [if_neg (by simp [hv])]
    · intro hv
      show (if isValidVolume v then v.toNum else getDefaultVolumeData.volume) = _
      rw [if_pos (by simp [hv])]
    · intro b hb
      rw [hb]
      rfl

/-- Witness for the amended C5: the acceptance predicate at volume 50,
and a concrete rejected update with volume 200. -/
theorem C5_amended_witness :
    (isValidVolume (.num 50) = true ↔ ∃ q, JSVal.num 50 = .num q ∧ 0 ≤ q ∧ q ≤ 100) ∧
    ((handleUpdateTabVolume emptyState (updateMsg (.num 200) .undefined .undefined)
        plainEnv).responses = [.err "Invalid volume"] ∧
      (handleUpdateTabVolume emptyState (updateMsg (.num 200) .undefined .undefined)
        plainEnv).state = emptyState) :=
  ⟨(C5_amended (.num 50) emptyState (updateMsg (.num 200) .undefined .undefined) plainEnv
      (by decide) (by decide) (by decide)).1,
    (C5_amended (.num 50) emptyState (updateMsg (.num 200) .undefined .undefined) plainEnv
      (by decide) (by decide) (by decide)).2.1⟩

theorem updateQ_self (qs : Queues) (t : ℚ) (v : Option (List QueueEntry)) :
    updateQ qs t v t = v := by
  unfold updateQ
  rw [if_pos rfl]

theorem sendMessageToTab_snd (qs : Queues) (tabId : ℚ) (c : Command) (rc : ℕ) (now : ℤ)
    (dok : Bool) (h1 : 0 < tabId) (h2 : c.action ≠ "") :
    (sendMessageToTab qs tabId c rc now dok).2 = decide (rc < MAX_RETRIES) := by
  unfold sendMessageToTab
  rw [if_neg (by simpa using h1), if_neg h2]
  by_cases h3 : MAX_RETRIES ≤ rc
  · rw [if_pos h3]
    have : ¬ rc < MAX_RETRIES := by omega
    simp [this]
  · rw [if_neg h3]
    have hlt : rc < MAX_RETRIES := by omega
    cases dok with
    | true => simp [hlt]
    | false => simp [hlt]

theorem sendMessageToTab_mem (qs : Queues) (tabId : ℚ) (c : Command) (rc : ℕ) (now : ℤ)
    (dok : Bool) (e : QueueEntry)
    (he : e ∈ ((sendMessageToTab qs tabId c rc now dok).1 tabId).getD []) :
    e ∈ (qs tabId).getD [] ∨ e.time = now := by
  unfold sendMessageToTab at he
  split_ifs at he with h1 h2 h3 h4
  all_goals
    first
      | exact Or.inl he
      | (dsimp only at he
         rw [updateQ_self, Option.getD_some] at he
         by_cases hl : ((qs tabId).getD []).length < MAX_QUEUE_SIZE
         · rw [if_pos hl] at he
           rcases List.mem_append.1 he with h | h
           · exact Or.inl h
           · exact Or.inr (by rw [List.mem_singleton.1 h])
         · rw [if_neg hl] at he
           exact Or.inl he)

theorem sendMessageToTab_mem_mono (qs : Queues) (tabId : ℚ) (c : Command) (rc : ℕ)
    (now : ℤ) (dok : Bool) (e : QueueEntry) (he : e ∈ (qs tabId).getD []) :
    e ∈ ((sendMessageToTab qs tabId c rc now dok).1 tabId).getD [] := by
  unfold sendMessageToTab
  split_ifs with h1 h2 h3 h4
  all_goals
    first
      | exact he
      | (dsimp only
         rw [updateQ_self, Option.getD_some]
         by_cases hl : ((qs tabId).getD []).length < MAX_QUEUE_SIZE
         · rw [if_pos hl]
           exact List.mem_append_left _ he
         · rw [if_neg hl]
           exact he)

theorem sendMessageToTab_len_succ (qs : Queues) (tabId : ℚ) (c : Command) (rc : ℕ)
    (now : ℤ) (dok : Bool) :
    (((sendMessageToTab qs tabId c rc now dok).1 tabId).getD []).length ≤
      ((qs tabId).getD []).length + 1 := by
  unfold sendMessageToTab
  split_ifs with h1 h2 h3 h4
  all_goals dsimp only
  all_goals
    first
      | omega
      | (rw [updateQ_self, Option.getD_some]
         by_cases hl : ((qs tabId).getD []).length < MAX_QUEUE_SIZE
         · rw [if_pos hl]
           simp
         · rw [if_neg hl]
           omega)

theorem sweepStep_sent (tabId : ℚ) (now : ℤ) (ok : ℕ → Bool) (h1 : 0 < tabId)
    (acc : SweepAcc) (item : QueueEntry) :
    (sweepStep tabId now ok acc item).sent =
      acc.sent ++ (if sweepEligible now item then [item.message] else []) := by
  unfold sweepStep
  by_cases ha : item.message.action = ""
  · rw [if_pos ha]
    simp [sweepEligible, ha]
  rw [if_neg ha]
  by_cases he : 1000 ≤ now - item.time ∧ now - item.time < 60000
  · rw [if_pos he]
    dsimp only
    rw [sendMessageToTab_snd _ _ _ _ _ _ h1 ha]
    simp [sweepEligible, ha, he.1, he.2]
  · rw [if_neg he]
    by_cases hy : now - item.time < 1000
    · rw [if_pos hy]
      have hna : ¬ (1000 ≤ now - item.time) := by omega
      simp [sweepEligible, hna]
    · rw [if_neg hy]
      have hnb : ¬ (now - item.time < 60000) := by
        by_contra hc
        push_neg at hy
        exact he ⟨hy, hc⟩
      simp [sweepEligible, hnb]

theorem sweepFold_sent (tabId : ℚ) (now : ℤ) (ok : ℕ → Bool) (h1 : 0 < tabId) :
    ∀ (l : List QueueEntry) (acc : SweepAcc),
      (l.foldl (sweepStep tabId now ok) acc).sent =
        acc.sent ++ (l.filter (sweepEligible now)).map QueueEntry.message := by
  intro l
  induction l with
  | nil => intro acc; simp
  | cons a l ih =>
    intro acc
    rw [List.foldl_cons, ih, sweepStep_sent tabId now ok h1 acc a]
    by_cases hp : sweepEligible now a
    · simp [List.filter_cons, hp]
    · simp [List.filter_cons, hp]

theorem sweepStep_age (tabId : ℚ) (now : ℤ) (ok : ℕ → Bool) (acc : SweepAcc)
    (item : QueueEntry)
    (h : ∀ e ∈ (acc.queues tabId).getD [], now - e.time < 1000) :
    ∀ e ∈ ((sweepStep tabId now ok acc item).queues tabId).getD [], now - e.time < 1000 := by
  intro e he
  unfold sweepStep at he
  by_cases ha : item.message.action = ""
  · rw [if_pos ha] at he
    exact h e he
  rw [if_neg ha] at he
  by_cases hel : 1000 ≤ now - item.time ∧ now - item.time < 60000
  · rw [if_pos hel] at he
    dsimp only at he
    rcases sendMessageToTab_mem _ _ _ _ _ _ e he with hin | htime
    · exact h e hin
    · omega
  · rw [if_neg hel] at he
    by_cases hy : now - item.time < 1000
    · rw [if_pos hy] at he
      dsimp only at he
      rw [updateQ_self, Option.getD_some] at he
      by_cases hl : ((acc.queues tabId).getD []).length < MAX_QUEUE_SIZE
      · rw [if_pos hl] at he
        rcases List.mem_append.1 he with hin | hin
        · exact h e hin
        · rw [List.mem_singleton.1 hin]
          exact hy
      · rw [if_neg hl] at he
        exact h e he
    · rw [if_neg hy] at he
      exact h e he

theorem sweepFold_age (tabId : ℚ) (now : ℤ) (ok : ℕ → Bool) :
    ∀ (l : List QueueEntry) (acc : SweepAcc),
      (∀ e ∈ (acc.queues tabId).getD [], now - e.time < 1000) →
      ∀ e ∈ (((l.foldl (sweepStep tabId now ok) acc).queues tabId).getD []),
        now - e.time < 1000 := by
  intro l
  induction l with
  | nil => intro acc h; exact h
  | cons a l ih =>
    intro acc h
    exact ih _ (sweepStep_age tabId now ok acc a h)

theorem sweepStep_mem_mono (tabId : ℚ) (now : ℤ) (ok : ℕ → Bool) (acc : SweepAcc)
    (item : QueueEntry) (e : QueueEntry) (he : e ∈ (acc.queues tabId).getD []) :
    e ∈ ((sweepStep tabId now ok acc item).queues tabId).getD [] := by
  unfold sweepStep
  by_cases ha : item.message.action = ""
  · rw [if_pos ha]
    exact he
  rw [if_neg ha]
  by_cases hel : 1000 ≤ now - item.time ∧ now - item.time < 60000
  · rw [if_pos hel]
    exact sendMessageToTab_mem_mono _ _ _ _ _ _ e he
  · rw [if_neg hel]
    by_cases hy : now - item.time < 1000
    · rw [if_pos hy]
      dsimp only
      rw [updateQ_self, Option.getD_some]
      by_cases hl : ((acc.queues tabId).getD []).length < MAX_QUEUE_SIZE
      · rw [if_pos hl]
        exact List.mem_append_left _ he
      · rw [if_neg hl]
        exact he
    · rw [if_neg hy]
      exact he

theorem sweepFold_mem_mono (tabId : ℚ) (now : ℤ) (ok : ℕ → Bool) :
    ∀ (l : List QueueEntry) (acc : SweepAcc) (e : QueueEntry),
      e ∈ (acc.queues tabId).getD [] →
      e ∈ (((l.foldl (sweepStep tabId now ok) acc).queues tabId).getD []) := by
  intro l
  induction l with
  | nil => intro acc e he; exact he
  | cons a l ih =>
    intro acc e he
    exact ih _ e (sweepStep_mem_mono tabId now ok acc a e he)

theorem sweepStep_len (tabId : ℚ) (now : ℤ) (ok : ℕ → Bool) (acc : SweepAcc)
    (item : QueueEntry) :
    (((sweepStep tabId now ok acc item).queues tabId).getD []).length ≤
      ((acc.queues tabId).getD []).length + 1 := by
  unfold sweepStep
  by_cases ha : item.message.action = ""
  · rw [if_pos ha]
    omega
  rw [if_neg ha]
  by_cases hel : 1000 ≤ now - item.time ∧ now - item.time < 60000
  · rw [if_pos hel]
    exact sendMessageToTab_len_succ _ _ _ _ _ _
  · rw [if_neg hel]
    by_cases hy : now - item.time < 1000
    · rw [if_pos hy]
      dsimp only
      rw [updateQ_self, Option.getD_some]
      by_cases hl : ((acc.queues tabId).getD []).length < MAX_QUEUE_SIZE
      · rw [if_pos hl]
        simp
      · rw [if_neg hl]
        omega
    · rw [if_neg hy]
      omega

theorem sweepFold_keep (tabId : ℚ) (now : ℤ) (ok : ℕ → Bool) :
    ∀ (l : List QueueEntry) (acc : SweepAcc),
      ((acc.queues tabId).getD []).length + l.length ≤ MAX_QUEUE_SIZE →
      ∀ e ∈ l, e.message.action ≠ "" → now - e.time < 1000 →
        e ∈ (((l.foldl (sweepStep tabId now ok) acc).queues tabId).getD []) := by
  intro l
  induction l with
  | nil =>
    intro acc _ e he
    exact absurd he (List.not_mem_nil e)
  | cons a l ih =>
    intro acc hlen e he ha hy
    rw [List.foldl_cons]
    rcases List.mem_cons.1 he with rfl | hel
    · apply sweepFold_mem_mono
      unfold sweepStep
      rw [if_neg ha]
      have hne : ¬ (1000 ≤ now - e.time ∧ now - e.time < 60000) := by
        intro hc
        omega
      rw [if_neg hne, if_pos hy]
      dsimp only
      rw [updateQ_self, Option.getD_some]
      have hl : ((acc.queues tabId).getD []).length < MAX_QUEUE_SIZE := by
        simp only [List.length_cons] at hlen
        omega
      rw [if_pos hl]
      exact List.mem_append_right _ (List.mem_singleton.2 rfl)
    · apply ih (sweepStep tabId now ok acc a) _ e hel ha hy
      have hstep := sweepStep_len tabId now ok acc a
      simp only [List.length_cons] at hlen
      omega

/-- Claim C9 as stated is false in one conjunct: an entry aged 5 time
units (in [1, 60)) whose retry count has reached the ceiling (3) is not
re-sent by the sweep — it is dropped — although the claim says entries
aged between 1 and 60 time units are re-sent. -/
theorem C9_counterexample :
    (processMessageQueue
        (updateQ (fun _ => none) 7 (some [⟨⟨"setVolume", 50, false, 50⟩, 3, 0⟩]))
        7 5000 (fun _ => true)).2 = [] ∧
    (processMessageQueue
        (updateQ (fun _ => none) 7 (some [⟨⟨"setVolume", 50, false, 50⟩, 3, 0⟩]))
        7 5000 (fun _ => true)).1 7 = some [] := by
  exact ⟨by decide, by decide⟩

/-- Claim C9, amended: on a sweep at time `now` over a (bounded) queue,
the re-sent entries are exactly those aged in [1, 60) time units whose
retry count is below the ceiling (3) (and structurally valid) — in
particular an entry is never re-sent once `now ≥ T + 60`; after the
sweep every entry still queued is younger than 1 time unit (so expired
and retried entries are gone on the first sweep at or after their
deadline), and every valid too-young entry is left in the queue. -/
theorem C9_amended (qs : Queues) (tabId : ℚ) (now : ℤ) (ok : ℕ → Bool)
    (queue : List QueueEntry)
    (h1 : 0 < tabId) (hq : qs tabId = some queue) (hlen : queue.length ≤ MAX_QUEUE_SIZE) :
    (processMessageQueue qs tabId now ok).2 =
      (queue.filter (sweepEligible now)).map QueueEntry.message ∧
    (∀ e ∈ ((processMessageQueue qs tabId now ok).1 tabId).getD [], now - e.time < 1000) ∧
    (∀ e ∈ queue, e.message.action ≠ "" → now - e.time < 1000 →
      e ∈ ((processMessageQueue qs tabId now ok).1 tabId).getD []) := by
  unfold processMessageQueue
  rw [if_neg (by simpa using h1), hq]
  dsimp only
  by_cases h0 : queue.length = 0
  · have hnil : queue = [] := List.length_eq_zero.1 h0
    subst hnil
    rw [if_pos h0]
    refine ⟨rfl, ?_, ?_⟩
    · intro e he
      dsimp only at he
      rw [hq] at he
      exact absurd he (List.not_mem_nil e)
    · intro e he
      exact absurd he (List.not_mem_nil e)
  · rw [if_neg h0]
    dsimp only
    rw [List.take_of_length_le hlen]
    refine ⟨?_, ?_, ?_⟩
    · rw [sweepFold_sent tabId now ok h1 queue ⟨updateQ qs tabId (some []), [], 0⟩]
      rfl
    · apply sweepFold_age
      intro e he
      dsimp only at he
      rw [updateQ_self, Option.getD_some] at he
      exact absurd he (List.not_mem_nil e)
    · intro e he ha hy
      apply sweepFold_keep tabId now ok queue ⟨updateQ qs tabId (some []), [], 0⟩ _ e he ha hy
      show ((updateQ qs tabId (some []) tabId).getD []).length + queue.length ≤ MAX_QUEUE_SIZE
      rw [updateQ_self, Option.getD_some]
      simpa using hlen

/-- Witness for the amended C9 at a concrete three-entry queue: one
eligible entry re-sent, one expired entry discarded, one too-young entry
kept. -/
theorem C9_amended_witness :
    ((processMessageQueue
        (updateQ (fun _ => none) 7
          (some [⟨⟨"setVolume", 50, false, 50⟩, 1, 55000⟩,
                 ⟨⟨"setVolume", 20, false, 20⟩, 1, 0⟩,
                 ⟨⟨"toggleMute", 0, true, 60⟩, 1, 59700⟩]))
        7 60000 (fun _ => true)).2 =
      ([⟨⟨"setVolume", 50, false, 50⟩, 1, 55000⟩,
        ⟨⟨"setVolume", 20, false, 20⟩, 1, 0⟩,
        ⟨⟨"toggleMute", 0, true, 60⟩, 1, 59700⟩].filter
          (sweepEligible 60000)).map QueueEntry.message) ∧
    (∀ e ∈ ((processMessageQueue
        (updateQ (fun _ => none) 7
          (some [⟨⟨"setVolume", 50, false, 50⟩, 1, 55000⟩,
                 ⟨⟨"setVolume", 20, false, 20⟩, 1, 0⟩,
                 ⟨⟨"toggleMute", 0, true, 60⟩, 1, 59700⟩]))
        7 60000 (fun _ => true)).1 7).getD [], (60000 : ℤ) - e.time < 1000) := by
  have h := C9_amended
    (updateQ (fun _ => none) 7
      (some [⟨⟨"setVolume", 50, false, 50⟩, 1, 55000⟩,
             ⟨⟨"setVolume", 20, false, 20⟩, 1, 0⟩,
             ⟨⟨"toggleMute", 0, true, 60⟩, 1, 59700⟩]))
    7 60000 (fun _ => true)
    [⟨⟨"setVolume", 50, false, 50⟩, 1, 55000⟩,
     ⟨⟨"setVolume", 20, false, 20⟩, 1, 0⟩,
     ⟨⟨"toggleMute", 0, true, 60⟩, 1, 59700⟩]
    (by norm_num) (by rw [updateQ_self]) (by simp [MAX_QUEUE_SIZE])
  exact ⟨h.1, h.2.1⟩

end VolumeControl
